import Mathlib

/-!
# The UnderGrads — `script.js`

A shallow embedding of the page script: the DOM is a list of elements in
document order, an element is referred to by its position in that list, and
each handler of the script is a function on the page state.
-/

namespace UnderGrads

/-! ## DOM model -/

/-- An inline `style.transform` value. `parallaxY d` is the text of the template literal
`translateX(-50%) translateY(-$(d)px)` of `updateParallax`: a literal minus sign, then the
number `d` as JavaScript prints it, then `px`. -/
inductive Transform where
  | unset
  | text (s : String)
  | parallaxY (d : ℚ)
  deriving DecidableEq

/-- The text after `translateY(` in `parallaxY d` is a CSS length exactly when the number
printed after the literal minus sign carries no sign of its own. -/
def Transform.wellFormed : Transform → Bool
  | .unset => true
  | .text _ => true
  | .parallaxY d => decide (0 ≤ d)

/-- An element: its tag (lower case), its class list, its attributes and the three inline
style properties the script writes. -/
structure Element where
  tag : String
  classList : List String
  attrs : List (String × String)
  transform : Transform
  opacity : String
  boxShadow : String
  deriving DecidableEq

/-- The document: its elements in document order. An element is referred to by its position. -/
abbrev Document := List Element

/-- The call `element.getAttribute(name)`. -/
def Element.getAttribute (e : Element) (name : String) : Option String :=
  e.attrs.lookup name

/-- The property `element.id`: the `id` attribute, or the empty string. -/
def Element.id (e : Element) : String :=
  (e.getAttribute "id").getD ""

/-- The call `element.classList.contains(token)`. -/
def classListContains (token : String) (e : Element) : Bool :=
  decide (token ∈ e.classList)

/-- The call `element.classList.add(token)`: a class list holds a token once. -/
def classListAdd (token : String) (e : Element) : Element :=
  if token ∈ e.classList then e else { e with classList := e.classList ++ [token] }

/-- The call `element.classList.remove(token)`. -/
def classListRemove (token : String) (e : Element) : Element :=
  { e with classList := e.classList.filter (fun c => c != token) }

/-- A simple selector of the fragment the script uses. -/
inductive Simple where
  | tag (name : String)
  | cls (name : String)
  | ident (name : String)
  | hasAttr (name : String)
  | attrEq (name value : String)
  | attrStartsWith (name value : String)
  deriving DecidableEq

/-- Whether an element matches a simple selector (standards mode: names compare exactly). -/
def Simple.matches : Simple → Element → Bool
  | .tag n, e => e.tag == n
  | .cls n, e => decide (n ∈ e.classList)
  | .ident n, e => e.getAttribute "id" == some n
  | .hasAttr a, e => (e.getAttribute a).isSome
  | .attrEq a v, e => e.getAttribute a == some v
  | .attrStartsWith a v, e =>
      match e.getAttribute a with
      | some w => v.data.isPrefixOf w.data
      | none => false

/-- A selector list: a comma-separated list of compound selectors. -/
abbrev Selector := List (List Simple)

/-- Whether an element matches one of the compound selectors of the list. -/
def Selector.matches (sel : Selector) (e : Element) : Bool :=
  sel.any (fun compound => compound.all (fun s => s.matches e))

/-- The positions of the elements that satisfy `p`, in document order. -/
def positionsWhere (p : Element → Bool) (doc : Document) : List Nat :=
  (List.range doc.length).filter
    (fun i => match doc[i]? with
      | some e => p e
      | none => false)

/-- The call `document.querySelectorAll(sel)` for a well-formed selector: a static node list. -/
def querySelectorAll (sel : Selector) (doc : Document) : List Nat :=
  positionsWhere sel.matches doc

/-- The call `document.querySelector(sel)` for a well-formed selector: the first match in
document order, or `null`. -/
def querySelector (sel : Selector) (doc : Document) : Option Nat :=
  (querySelectorAll sel doc).head?

/-- The call `nodes.forEach(f)` for a callback that mutates the element it is handed. -/
def forEach (nodes : List Nat) (f : Element → Element) (doc : Document) : Document :=
  nodes.foldl (fun d i => List.modify f i d) doc

/-- A mutation of the element a reference points at. -/
def mutate (i : Nat) (f : Element → Element) (doc : Document) : Document :=
  List.modify f i doc

/-! ## Responsive text scaling (`initializeResponsiveText`) -/

/-- The constant `baseWidth` of `updateTextScale`. -/
def baseWidth : ℚ := 1200

/-- The value `updateTextScale` writes to `--text-scale`:
`Math.min(Math.max(viewportWidth / baseWidth, 0.7), 1.2)`, over exact rationals. -/
def updateTextScale (viewportWidth : ℚ) : ℚ :=
  min (max (viewportWidth / baseWidth) (7 / 10)) (6 / 5)

/-! ## Service-card parallax (`initializeParallaxCards`) -/

/-- The fields of `card.getBoundingClientRect()` that `updateParallax` reads. -/
structure Rect where
  top : ℚ
  bottom : ℚ
  height : ℚ

/-- The number `baseOffset + parallaxOffset` that `updateParallax` splices into the
template literal, with
`scrollProgress = (windowHeight - rect.top) / (windowHeight + rect.height)`, over exact
rationals and for `windowHeight + rect.height` other than zero. -/
def parallaxShift (windowHeight : ℚ) (rect : Rect) : ℚ :=
  let scrollProgress := (windowHeight - rect.top) / (windowHeight + rect.height)
  let baseOffset : ℚ := 100
  let parallaxOffset := scrollProgress * 200
  baseOffset + parallaxOffset

/-- The body of the `serviceCards.forEach` callback of `updateParallax` for one card. -/
def updateParallaxCard (windowHeight : ℚ) (rect : Rect) (card : Element) : Element :=
  if rect.bottom ≥ -200 ∧ rect.top ≤ windowHeight + 200 then
    { card with transform := .parallaxY (parallaxShift windowHeight rect), opacity := "1" }
  else card

/-- The function `updateParallax`: `layout i` is what `getBoundingClientRect()` returns for
the element at position `i`. -/
def updateParallax (serviceCards : List Nat) (windowHeight : ℚ) (layout : Nat → Rect)
    (doc : Document) : Document :=
  serviceCards.foldl (fun d i => List.modify (updateParallaxCard windowHeight (layout i)) i d) doc

/-! ## Scroll effects (`initializeScrollEffects`) -/

/-- The selector `.story-paragraph, .main-heading, .hero-subtitle`. -/
def textElementsSelector : Selector :=
  [[.cls "story-paragraph"], [.cls "main-heading"], [.cls "hero-subtitle"]]

/-- The selector `.nav-link`. -/
def navLinkSelector : Selector := [[.cls "nav-link"]]

/-- The selector `.nav-link.active`. -/
def activeNavLinkSelector : Selector := [[.cls "nav-link", .cls "active"]]

/-- The variables `initializeScrollEffects` closes over, and the document. `scrollTimer` tells
whether a `handleScrollEnd` timeout is pending. -/
structure ScrollEffects where
  doc : Document
  textElements : List Nat
  navLinks : List Nat
  scrollTimer : Bool
  lastScrollY : ℚ
  isScrolling : Bool
  scrollDirection : String

/-- The state right after `initializeScrollEffects` ran with `window.scrollY = scrollY`. -/
def initializeScrollEffects (scrollY : ℚ) (doc : Document) : ScrollEffects :=
  { doc := doc
    textElements := querySelectorAll textElementsSelector doc
    navLinks := querySelectorAll navLinkSelector doc
    scrollTimer := false
    lastScrollY := scrollY
    isScrolling := false
    scrollDirection := "up" }

/-- The function `handleScrollStart`. -/
def handleScrollStart (s : ScrollEffects) : ScrollEffects :=
  if !s.isScrolling then
    let doc1 := forEach s.textElements
      (fun element => classListAdd "scrolling" (classListAdd "text-blur-on-scroll" element)) s.doc
    let doc2 := forEach s.navLinks
      (fun link => if !classListContains "active" link then { link with opacity := "0.6" } else link)
      doc1
    { s with isScrolling := true, doc := doc2 }
  else s

/-- The function `handleScrollEnd`. -/
def handleScrollEnd (s : ScrollEffects) : ScrollEffects :=
  let doc1 := forEach s.textElements (fun element => classListRemove "scrolling" element) s.doc
  let doc2 := forEach s.navLinks (fun link => { link with opacity := "" }) doc1
  { s with isScrolling := false, doc := doc2 }

/-- The first `scroll` listener, run with `window.scrollY = scrollY`. -/
def scrollListenerFirst (scrollY : ℚ) (s : ScrollEffects) : ScrollEffects :=
  let s1 := handleScrollStart s
  { s1 with scrollTimer := true, lastScrollY := scrollY }

/-- The second `scroll` listener, run with `window.scrollY = scrollY`. -/
def scrollListenerSecond (scrollY : ℚ) (s : ScrollEffects) : ScrollEffects :=
  let currentScrollY := scrollY
  let scrollDirection := if currentScrollY > s.lastScrollY then "down" else "up"
  let s1 := { s with scrollDirection := scrollDirection }
  match querySelector activeNavLinkSelector s1.doc with
  | some activeNavLink =>
    if s1.isScrolling then
      if scrollDirection = "down" then
        let shadow := fun (link : Element) =>
          { link with boxShadow := "0 4px 12px rgba(255, 215, 0, 0.3)" }
        { s1 with doc := mutate activeNavLink shadow s1.doc }
      else
        let shadow := fun (link : Element) =>
          { link with boxShadow := "0 2px 8px rgba(255, 215, 0, 0.2)" }
        { s1 with doc := mutate activeNavLink shadow s1.doc }
    else s1
  | none => s1

/-- One `scroll` event at position `scrollY`: the two listeners in registration order. -/
def scrollEvent (scrollY : ℚ) (s : ScrollEffects) : ScrollEffects :=
  scrollListenerSecond scrollY (scrollListenerFirst scrollY s)

/-- The timeout `setTimeout(handleScrollEnd, 150)` firing. -/
def scrollTimerFires (s : ScrollEffects) : ScrollEffects :=
  if s.scrollTimer then { handleScrollEnd s with scrollTimer := false } else s

/-! ## Scroll-triggered reveal (`initializeScrollAnimations`) -/

/-- An `IntersectionObserverEntry`, as far as the callbacks read it. -/
structure Entry where
  isIntersecting : Bool
  target : Nat
  deriving DecidableEq

/-- The call `observer.observe(target)` on the list of observed targets. -/
def observe (target : Nat) (observed : List Nat) : List Nat :=
  if target ∈ observed then observed else observed ++ [target]

/-- The call `observer.unobserve(target)` on the list of observed targets. -/
def unobserve (target : Nat) (observed : List Nat) : List Nat :=
  observed.filter (fun t => t != target)

/-- The document and the targets the reveal observer still observes. -/
structure Reveal where
  doc : Document
  observed : List Nat
  deriving DecidableEq

/-- The body of `entries.forEach` in the observer callback of `initializeScrollAnimations`. -/
def revealEntry (s : Reveal) (entry : Entry) : Reveal :=
  if entry.isIntersecting then
    { doc := mutate entry.target (classListAdd "animate-in") s.doc
      observed := unobserve entry.target s.observed }
  else s

/-- The observer callback of `initializeScrollAnimations` on one batch of entries. -/
def revealCallback (s : Reveal) (entries : List Entry) : Reveal :=
  entries.foldl revealEntry s

/-- A sequence of batches delivered to the callback, one call per batch. -/
def revealBatches (s : Reveal) (batches : List (List Entry)) : Reveal :=
  batches.foldl revealCallback s

/-- The targets `initializeScrollAnimations` hands to `observer.observe`, in call order: the
story text blocks, the service items, and the work section when there is one. -/
def revealTargets (doc : Document) : List Nat :=
  querySelectorAll [[.cls "story-text-block"]] doc ++
    querySelectorAll [[.cls "service-item"]] doc ++
      (querySelector [[.cls "work-section"]] doc).toList

/-- The function `initializeScrollAnimations`: `none` when it returns at the guard
`!window.IntersectionObserver`, else the observer state it sets up. -/
def initializeScrollAnimations (hasIntersectionObserver : Bool) (doc : Document) :
    Option Reveal :=
  if !hasIntersectionObserver then none
  else some { doc := doc, observed := (revealTargets doc).foldl (fun obs t => observe t obs) [] }

/-- What the browser guarantees of the entries it delivers: the target of each entry is
observed at the moment the callback processes the entry. -/
def observedOnly : Reveal → List Entry → Bool
  | _, [] => true
  | s, entry :: rest =>
    decide (entry.target ∈ s.observed) && observedOnly (revealEntry s entry) rest

/-- The reveal-once property as C3 states it, for a run `batches` from the state `s`: at every
entry of the run, an intersecting entry leaves its target with `animate-in` and unobserved and
no later entry has that target; a non-intersecting entry changes nothing; and every class an
element carries at that point it still carries at the end of the run. -/
def AnimatesOnce (s : Reveal) (batches : List (List Entry)) : Prop :=
  ∀ (before : List Entry) (entry : Entry) (after : List Entry),
    batches.flatten = before ++ entry :: after →
      (entry.isIntersecting = true →
        (∃ e, (revealEntry (revealCallback s before) entry).doc[entry.target]? = some e ∧
          "animate-in" ∈ e.classList) ∧
        entry.target ∉ (revealEntry (revealCallback s before) entry).observed ∧
        (∀ later ∈ after, later.target ≠ entry.target)) ∧
      (entry.isIntersecting = false →
        revealEntry (revealCallback s before) entry = revealCallback s before) ∧
      (∀ (i : Nat) (e : Element), (revealCallback s before).doc[i]? = some e →
        ∃ e', (revealBatches s batches).doc[i]? = some e' ∧
          ∀ c ∈ e.classList, c ∈ e'.classList)

/-- What the browser guarantees of the batches it delivers: it queues an entry only for a target
the observer observes, and the callback, the only caller of `unobserve`, does not run while a
batch is being queued; so every target of a batch is observed when the batch is delivered. The
queue may hold several entries for one target. -/
def queuedWhileObserved : Reveal → List (List Entry) → Bool
  | _, [] => true
  | s, batch :: rest =>
    batch.all (fun entry => decide (entry.target ∈ s.observed)) &&
      queuedWhileObserved (revealCallback s batch) rest

/-- Whether some intersecting entry of the run has the element at position `i` as target. -/
def revealed (batches : List (List Entry)) (i : Nat) : Bool :=
  batches.flatten.any (fun entry => entry.isIntersecting && entry.target == i)

/-- The reveal-once property as the callback has it, for a run `batches` from the state `s`.
The batches are processed entry by entry in order; an intersecting entry adds `animate-in` to
its target and unobserves the target, a non-intersecting entry changes nothing. At the end an
element carries what it carried before plus, if an intersecting entry had it as target,
`animate-in`, and the observed targets are those observed before that no intersecting entry
had as target; an element that carried `animate-in` before is unchanged. Where the browser
queues entries only for observed targets, no later batch has an entry for the target of an
intersecting entry. -/
def RevealOnce (s : Reveal) (batches : List (List Entry)) : Prop :=
  revealBatches s batches = revealCallback s batches.flatten ∧
  (∀ (before : List Entry) (entry : Entry) (after : List Entry),
    batches.flatten = before ++ entry :: after →
      (entry.isIntersecting = true →
        revealCallback s (before ++ [entry]) =
          { doc := mutate entry.target (classListAdd "animate-in") (revealCallback s before).doc
            observed := unobserve entry.target (revealCallback s before).observed }) ∧
      (entry.isIntersecting = false →
        revealCallback s (before ++ [entry]) = revealCallback s before)) ∧
  (∀ (i : Nat) (e : Element), s.doc[i]? = some e →
    (revealBatches s batches).doc[i]? =
      some (if revealed batches i then classListAdd "animate-in" e else e)) ∧
  (revealBatches s batches).observed = s.observed.filter (fun t => !revealed batches t) ∧
  (∀ (i : Nat) (e : Element), s.doc[i]? = some e → "animate-in" ∈ e.classList →
    (revealBatches s batches).doc[i]? = some e) ∧
  (queuedWhileObserved s batches = true →
    ∀ (earlier : List (List Entry)) (batch : List Entry) (later : List (List Entry)),
      batches = earlier ++ batch :: later →
        ∀ entry ∈ batch, entry.isIntersecting = true →
          ∀ b ∈ later, ∀ x ∈ b, x.target ≠ entry.target)

/-- A page with one story text block. -/
def storyPage : Document :=
  [Element.mk "div" ["story-text-block"] [] .unset "" ""]

/-! ## Selector text built from page data

Three calls of `document.querySelector` are handed text the script builds from attribute
values. The text goes through the CSS tokenizer, so what it denotes depends on the characters
spliced in. The model is exact where the outcome is certain and says so where it is not. -/

/-- How a call ends: normally, with a `SyntaxError` thrown by `querySelector`, with the
error of `new IntersectionObserver` where no such constructor is defined, or outside the
fragment of selector text modelled here. -/
inductive Completion where
  | normal
  | syntaxError
  | referenceError
  | unmodelled
  deriving DecidableEq

/-- The state a call leaves behind and how the call ended. -/
structure Outcome (σ : Type) where
  state : σ
  completion : Completion

/-- What selector text denotes. -/
inductive Parsed where
  | selector (sel : Selector)
  | syntaxError
  | unmodelled
  deriving DecidableEq

/-- The double quote. -/
def quoteChar : Char := Char.ofNat 34

/-- The backslash, which starts an escape in CSS. -/
def backslashChar : Char := Char.ofNat 92

/-- The code points CSS treats as a line break: line feed, form feed, carriage return. -/
def isNewline (c : Char) : Bool :=
  c = Char.ofNat 10 || c = Char.ofNat 12 || c = Char.ofNat 13

/-- The code point NUL, which the CSS tokenizer replaces by U+FFFD. -/
def nulChar : Char := Char.ofNat 0

/-- The replacement character U+FFFD. -/
def replacementChar : Char := Char.ofNat 65533

/-- CSS whitespace: a line break, a tab or a space. -/
def isWhitespace (c : Char) : Bool :=
  isNewline c || c = Char.ofNat 9 || c = ' '

/-- After the string that is the value of an attribute selector only whitespace, a comment,
a modifier (`i` or `s`, possibly escaped) or the closing bracket may follow: whether `c` can
begin one of these. -/
def mayFollowValue (c : Char) : Bool :=
  isWhitespace c || c = ']' || c = '/' || c = backslashChar ||
    c = 'i' || c = 'I' || c = 's' || c = 'S'

/-- The tokenizer reading `body` after the opening quote of `[attr="`, the script's own `"]`
following `body`; `acc` is the string value read so far. A line break makes the string a
bad-string token, so the selector is invalid. A double quote ends the string early; when what
follows cannot continue the attribute selector (in particular when the script's own quote
follows, which opens a second string) the selector is invalid, and otherwise the text is a
different selector, which is not modelled, as is text with an escape. -/
def splicedValue (acc : List Char) : List Char → Option (Option (List Char))
  | [] => some (some acc)
  | c :: rest =>
    if c = quoteChar then
      match rest with
      | [] => some none
      | d :: _ => if mayFollowValue d then none else some none
    else if c = backslashChar then none
    else if isNewline c then some none
    else if c = nulChar then splicedValue (acc ++ [replacementChar]) rest
    else splicedValue (acc ++ [c]) rest

/-- What the text `.cls[attr="body"]` denotes, `body` having been spliced between the quotes
as it is. -/
def attributeSelectorText (cls attr body : String) : Parsed :=
  match splicedValue [] body.data with
  | some (some value) => .selector [[.cls cls, .attrEq attr (String.mk value)]]
  | some none => .syntaxError
  | none => .unmodelled

/-- A code point that may start a CSS identifier: a letter, an underscore or a non-ASCII
code point. -/
def isNameStart (c : Char) : Bool :=
  c.isAlpha || c = '_' || decide (128 ≤ c.toNat)

/-- A code point that may continue a CSS identifier. -/
def isNameChar (c : Char) : Bool :=
  isNameStart c || c.isDigit || c = '-'

/-- Whether a run of name code points is an identifier. -/
def startsIdentifier : List Char → Bool
  | [] => false
  | c :: rest =>
    isNameStart c ||
      (c = '-' && match rest with
        | [] => false
        | d :: _ => isNameStart d || d = '-')

/-- What selector text that begins with `#` denotes. A `#` that no name follows is a
delimiter, which no selector contains, and a hash token that is not an identifier (`#1`)
is no ID selector: both are invalid. `#name` alone is the ID selector. Text with an escape,
a NUL, or anything after the name is not modelled. -/
def hashSelectorText (text : String) : Parsed :=
  match text.data with
  | '#' :: name =>
    if name.any (fun c => c = backslashChar || c = nulChar) then .unmodelled
    else if name.takeWhile isNameChar = [] then .syntaxError
    else if !startsIdentifier (name.takeWhile isNameChar) then .syntaxError
    else if name.dropWhile isNameChar = [] then
      .selector [[.ident (String.mk (name.takeWhile isNameChar))]]
    else .unmodelled
  | _ => .unmodelled

/-- The call `document.querySelector(text)`: the first match, `null`, or how the call fails. -/
def documentQuerySelector (text : Parsed) (doc : Document) : Except Completion (Option Nat) :=
  match text with
  | .selector sel => .ok (querySelector sel doc)
  | .syntaxError => .error .syntaxError
  | .unmodelled => .error .unmodelled

/-- Text that goes through the quotes of an attribute selector unchanged: no double quote,
backslash, line break or NUL. -/
def cssPlain (t : String) : Bool :=
  t.data.all (fun c => !(c = quoteChar || c = backslashChar || isNewline c || c = nulChar))

/-- Text with no double quote and no backslash. -/
def noQuoteOrBackslash (t : String) : Bool :=
  t.data.all (fun c => !(c = quoteChar || c = backslashChar))

/-- The element at position `i` is the first element of the document, in document order, that
satisfies `p`. -/
def FirstMatch (doc : Document) (p : Element → Prop) (i : Nat) : Prop :=
  (∃ e, doc[i]? = some e ∧ p e) ∧ ∀ j < i, ∀ e, doc[j]? = some e → ¬ p e

/-! ## About section switcher (`initializeAboutNavigation`) -/

/-- The selector `.about-nav-link`. -/
def aboutNavLinkSelector : Selector := [[.cls "about-nav-link"]]

/-- The selector `.about-content-section`. -/
def aboutContentSelector : Selector := [[.cls "about-content-section"]]

/-- The function `switchToSection`, closed over the node lists `navLinks` and
`contentSections`. -/
def switchToSection (navLinks contentSections : List Nat) (targetSection : String)
    (doc : Document) : Outcome Document :=
  let doc1 := forEach navLinks (fun link => classListRemove "active" link) doc
  let doc2 := forEach contentSections (fun section_ => classListRemove "active" section_) doc1
  match documentQuerySelector
      (attributeSelectorText "about-nav-link" "data-section" targetSection) doc2 with
  | .error c => ⟨doc2, c⟩
  | .ok activeLink =>
    let doc3 := match activeLink with
      | some link => mutate link (classListAdd "active") doc2
      | none => doc2
    match documentQuerySelector
        (attributeSelectorText "about-content-section" "data-content" targetSection) doc3 with
    | .error c => ⟨doc3, c⟩
    | .ok targetContent =>
      let doc4 := match targetContent with
        | some content => mutate content (classListAdd "active") doc3
        | none => doc3
      ⟨doc4, .normal⟩

/-- The outcome of `switchToSection(t)` on a page, the node lists being those
`initializeAboutNavigation` computed from the document; `none` where
`initializeAboutNavigation` returns at its guard `!navLinks.length || !contentSections.length`,
so that `switchToSection` is never defined and never called. -/
def afterSwitch (doc : Document) (t : String) : Option (Outcome Document) :=
  let navLinks := querySelectorAll aboutNavLinkSelector doc
  let contentSections := querySelectorAll aboutContentSelector doc
  if navLinks.length = 0 ∨ contentSections.length = 0 then none
  else some (switchToSection navLinks contentSections t doc)

/-- Whether the script passes `t` to `switchToSection` on this page: the page gets through
the guard of `initializeAboutNavigation`, and `t` is `about` (the call at initialisation) or
the non-empty `data-section` of a nav link (the call in the click listener of that link). -/
def passedToSwitch (doc : Document) (t : String) : Bool :=
  (afterSwitch doc t).isSome &&
    (t == "about" ||
      (querySelectorAll aboutNavLinkSelector doc).any (fun link =>
        match doc[link]? with
        | some e => e.getAttribute "data-section" == some t && t != ""
        | none => false))

/-- The statement of exclusivity for the nav links: after `switchToSection(t)` a nav link
carries `active` exactly when it is the first nav link whose `data-section` is `t`. -/
def NavLinksExclusive (doc : Document) (t : String) : Prop :=
  ∀ out, afterSwitch doc t = some out →
    ∀ (i : Nat) (e : Element), doc[i]? = some e → "about-nav-link" ∈ e.classList →
      ∃ e', out.state[i]? = some e' ∧
        ("active" ∈ e'.classList ↔
          FirstMatch doc
            (fun x => "about-nav-link" ∈ x.classList ∧
              x.getAttribute "data-section" = some t) i)

/-- The statement of exclusivity for the content sections: after `switchToSection(t)` a content
section carries `active` exactly when it is the first content section whose `data-content`
is `t`. -/
def ContentSectionsExclusive (doc : Document) (t : String) : Prop :=
  ∀ out, afterSwitch doc t = some out →
    ∀ (i : Nat) (e : Element), doc[i]? = some e → "about-content-section" ∈ e.classList →
      ∃ e', out.state[i]? = some e' ∧
        ("active" ∈ e'.classList ↔
          FirstMatch doc
            (fun x => "about-content-section" ∈ x.classList ∧
              x.getAttribute "data-content" = some t) i)

/-- A page whose only element is both a nav link of the About switcher (for section `x`) and a
content section (for content `y`). -/
def overlapPage : Document :=
  [Element.mk "div" ["about-nav-link", "about-content-section"]
    [("data-section", "x"), ("data-content", "y")] .unset "" ""]

/-- The text `a`, line feed, `b`. -/
def twoLines : String := String.mk ['a', Char.ofNat 10, 'b']

/-- A page with a nav link of the About switcher whose `data-section` spans two lines, and
the content section for it. -/
def twoLinePage : Document :=
  [Element.mk "a" ["about-nav-link"] [("data-section", twoLines)] .unset "" "",
   Element.mk "div" ["about-content-section"] [("data-content", twoLines)] .unset "" ""]

/-- A page whose About switcher has a nav link and an active content section for `team` and
nothing for `about`. -/
def teamOnlyPage : Document :=
  [Element.mk "a" ["about-nav-link"] [("data-section", "team")] .unset "" "",
   Element.mk "div" ["about-content-section", "active"] [("data-content", "team")] .unset "" ""]

/-- A page with two nav links and two content sections of the About switcher, the second
pair active. -/
def aboutPage : Document :=
  [Element.mk "a" ["about-nav-link"] [("data-section", "about")] .unset "" "",
   Element.mk "a" ["about-nav-link", "active"] [("data-section", "team")] .unset "" "",
   Element.mk "div" ["about-content-section"] [("data-content", "about")] .unset "" "",
   Element.mk "div" ["about-content-section", "active"] [("data-content", "team")] .unset "" ""]

/-! ## Navigation active states (`initializeNavigationActiveStates`) -/

/-- The selector `section[id], main[id]`. -/
def sectionSelector : Selector :=
  [[.tag "section", .hasAttr "id"], [.tag "main", .hasAttr "id"]]

/-- The document and the pending `setTimeout` calls of the pulse effect, each with the link
it closed over. -/
structure NavState where
  doc : Document
  pulseTimers : List Nat
  deriving DecidableEq

/-- The expression `entry.target.id`. -/
def targetId (doc : Document) (entry : Entry) : String :=
  match doc[entry.target]? with
  | some e => e.id
  | none => ""

/-- The body of `entries.forEach` in the observer callback of
`initializeNavigationActiveStates`, closed over the node list `navLinks`. -/
def navEntry (navLinks : List Nat) (s : NavState) (entry : Entry) : Outcome NavState :=
  if entry.isIntersecting then
    let doc1 := forEach navLinks
      (fun link => { classListRemove "active" link with transform := .unset }) s.doc
    match documentQuerySelector
        (attributeSelectorText "nav-link" "href" ("#" ++ targetId doc1 entry)) doc1 with
    | .error c => ⟨{ s with doc := doc1 }, c⟩
    | .ok (some activeLink) =>
      ⟨{ doc := mutate activeLink (classListAdd "active") doc1
         pulseTimers := s.pulseTimers ++ [activeLink] }, .normal⟩
    | .ok none => ⟨{ s with doc := doc1 }, .normal⟩
  else ⟨s, .normal⟩

/-- The observer callback of `initializeNavigationActiveStates` on one batch: `forEach` stops
at the first entry whose processing throws. -/
def navCallback (navLinks : List Nat) : NavState → List Entry → Outcome NavState
  | s, [] => ⟨s, .normal⟩
  | s, entry :: rest =>
    match navEntry navLinks s entry with
    | ⟨s', .normal⟩ => navCallback navLinks s' rest
    | out => out

/-- The timeout of the pulse effect firing for `activeLink`. -/
def pulseTimerFires (activeLink : Nat) (doc : Document) : Document :=
  mutate activeLink
    (fun link =>
      if classListContains "active" link then
        { link with transform := .text "translateX(4px) scale(1.02)" }
      else link) doc

/-- The last entry of the batch that is intersecting, if there is one. -/
def lastIntersecting : List Entry → Option Entry
  | [] => none
  | entry :: rest =>
    match lastIntersecting rest with
    | some last => some last
    | none => if entry.isIntersecting then some entry else none

/-- The callback run on a batch, the node list being the one
`initializeNavigationActiveStates` computed from the document. -/
def afterBatch (doc : Document) (entries : List Entry) : Outcome NavState :=
  navCallback (querySelectorAll navLinkSelector doc) ⟨doc, []⟩ entries

/-- The statement of active-state highlighting for a batch: with no intersecting entry the nav
links are as before; with one, a nav link carries `active` afterwards exactly when it is the
first nav link whose `href` is `#` followed by the id of the last intersecting entry's
target. -/
def NavHighlight (doc : Document) (entries : List Entry) : Prop :=
  (lastIntersecting entries = none → (afterBatch doc entries).state.doc = doc) ∧
  (∀ last, lastIntersecting entries = some last →
    ∀ (i : Nat) (e : Element), doc[i]? = some e → "nav-link" ∈ e.classList →
      ∃ e', (afterBatch doc entries).state.doc[i]? = some e' ∧
        ("active" ∈ e'.classList ↔
          FirstMatch doc
            (fun x => "nav-link" ∈ x.classList ∧
              x.getAttribute "href" = some ("#" ++ targetId doc last)) i))

/-- Two documents of the same length whose elements agree in their attributes and in every
class but `active`. -/
def SameButActive (d doc : Document) : Prop :=
  d.length = doc.length ∧
    ∀ (j : Nat) (e e' : Element), doc[j]? = some e → d[j]? = some e' →
      e'.attrs = e.attrs ∧ ∀ c, c ≠ "active" → (c ∈ e'.classList ↔ c ∈ e.classList)

/-- A page with a section whose id holds a double quote, a nav link to `#home`, and the
section `home`. -/
def quotedIdPage : Document :=
  [Element.mk "section" [] [("id", String.mk ['q', quoteChar, 'a'])] .unset "" "",
   Element.mk "a" ["nav-link"] [("href", "#home")] .unset "" "",
   Element.mk "section" [] [("id", "home")] .unset "" ""]

/-- A page with two sections and their nav links, the first link active. -/
def navPage : Document :=
  [Element.mk "a" ["nav-link", "active"] [("href", "#home")] .unset "" "",
   Element.mk "a" ["nav-link"] [("href", "#work")] .unset "" "",
   Element.mk "section" [] [("id", "home")] .unset "" "",
   Element.mk "section" [] [("id", "work")] .unset "" ""]

/-! ## Smooth scroll for internal links (`initializeSmoothScroll`) -/

/-- The selector `a[href^="#"]`. -/
def anchorLinkSelector : Selector := [[.tag "a", .attrStartsWith "href" "#"]]

/-- A call `targetElement.scrollIntoView(options)`. -/
structure ScrollCall where
  target : Nat
  behavior : String
  block : String
  deriving DecidableEq

/-- What a click handler of `initializeSmoothScroll` does to its surroundings: whether
`e.preventDefault()` was called, the `scrollIntoView` calls, and the URLs pushed to the
history. -/
structure ClickEffects where
  defaultPrevented : Bool
  scrolls : List ScrollCall
  history : List String
  deriving DecidableEq

/-- The click handler `initializeSmoothScroll` attaches to a link matched by `a[href^="#"]`;
`targetId` is the link's `href` attribute. -/
def smoothScrollClick (targetId : String) (doc : Document) (s : ClickEffects) :
    Outcome ClickEffects :=
  match documentQuerySelector (hashSelectorText targetId) doc with
  | .error c => ⟨s, c⟩
  | .ok (some targetElement) =>
    ⟨{ defaultPrevented := true
       scrolls := s.scrolls ++ [ScrollCall.mk targetElement "smooth" "start"]
       history := s.history ++ [targetId] }, .normal⟩
  | .ok none => ⟨s, .normal⟩

/-! ## Start-up (`initializeApp`) -/

/-- The properties of `window` the initializers read; `layout i` is the rectangle of the
element at position `i`. -/
structure Window where
  hasIntersectionObserver : Bool
  prefersReducedMotion : Bool
  innerWidth : ℚ
  innerHeight : ℚ
  scrollY : ℚ
  layout : Nat → Rect

/-- The event listeners the initializers register. -/
inductive Listener where
  | smoothScrollClick (link : Nat)
  | windowLoad
  | windowResize
  | scrollEffectsFirst
  | scrollEffectsSecond
  | parallaxScroll
  | aboutClick (link : Nat)
  | aboutMouseEnter (link : Nat)
  | aboutMouseLeave (link : Nat)
  | aboutKeydown (link : Nat)
  deriving DecidableEq

/-- The page while `initializeApp` runs: the document, the custom property `--text-scale`,
the listeners registered so far, the targets of the two observers, and the initializers
entered so far, in call order. -/
structure App where
  doc : Document
  textScale : Option ℚ
  listeners : List Listener
  revealObserved : List Nat
  navObserved : List Nat
  called : List String

/-- Sequencing of two calls: the second runs only when the first returned normally. -/
def Outcome.andThen {σ : Type} (r : Outcome σ) (f : σ → Outcome σ) : Outcome σ :=
  match r.completion with
  | .normal => f r.state
  | _ => r

/-- The selector `[data-parallax="service-card"]`. -/
def serviceCardSelector : Selector := [[.attrEq "data-parallax" "service-card"]]

/-- The call `initializeScrollAnimations()` of `initializeApp`. -/
def App.initializeScrollAnimations (w : Window) (a : App) : Outcome App :=
  let a := { a with called := a.called ++ ["initializeScrollAnimations"] }
  match UnderGrads.initializeScrollAnimations w.hasIntersectionObserver a.doc with
  | none => ⟨a, .normal⟩
  | some r => ⟨{ a with revealObserved := r.observed }, .normal⟩

/-- The call `initializeSmoothScroll()`: one click listener per link matched by
`a[href^="#"]`. -/
def App.initializeSmoothScroll (a : App) : Outcome App :=
  let a := { a with called := a.called ++ ["initializeSmoothScroll"] }
  let links := querySelectorAll anchorLinkSelector a.doc
  ⟨{ a with listeners := a.listeners ++ links.map Listener.smoothScrollClick }, .normal⟩

/-- The call `handlePageLoad()`: one `load` listener on `window`. -/
def App.handlePageLoad (a : App) : Outcome App :=
  let a := { a with called := a.called ++ ["handlePageLoad"] }
  ⟨{ a with listeners := a.listeners ++ [Listener.windowLoad] }, .normal⟩

/-- The call `initializeResponsiveText()`: the initial `updateTextScale()` and the `resize`
listener. -/
def App.initializeResponsiveText (w : Window) (a : App) : Outcome App :=
  let a := { a with called := a.called ++ ["initializeResponsiveText"] }
  ⟨{ a with
      textScale := some (updateTextScale w.innerWidth)
      listeners := a.listeners ++ [Listener.windowResize] }, .normal⟩

/-- The call `initializeNavigationActiveStates()`. It returns at its guard when the page has no
`section[id], main[id]` or no `.nav-link`; past the guard it evaluates
`new IntersectionObserver(...)`, which throws where no such constructor is defined. -/
def App.initializeNavigationActiveStates (w : Window) (a : App) : Outcome App :=
  let a := { a with called := a.called ++ ["initializeNavigationActiveStates"] }
  let sections := querySelectorAll sectionSelector a.doc
  let navLinks := querySelectorAll navLinkSelector a.doc
  if sections.length = 0 ∨ navLinks.length = 0 then ⟨a, .normal⟩
  else if !w.hasIntersectionObserver then ⟨a, .referenceError⟩
  else ⟨{ a with navObserved := sections.foldl (fun obs t => observe t obs) [] }, .normal⟩

/-- The call `initializeScrollEffects()`: the two `scroll` listeners. -/
def App.initializeScrollEffects (a : App) : Outcome App :=
  let a := { a with called := a.called ++ ["initializeScrollEffects"] }
  ⟨{ a with
      listeners := a.listeners ++ [Listener.scrollEffectsFirst, Listener.scrollEffectsSecond] },
    .normal⟩

/-- The call `initializeParallaxCards()`. -/
def App.initializeParallaxCards (w : Window) (a : App) : Outcome App :=
  let a := { a with called := a.called ++ ["initializeParallaxCards"] }
  if w.prefersReducedMotion then ⟨a, .normal⟩
  else
    let serviceCards := querySelectorAll serviceCardSelector a.doc
    if serviceCards.length = 0 then ⟨a, .normal⟩
    else
      ⟨{ a with
          listeners := a.listeners ++ [Listener.parallaxScroll]
          doc := updateParallax serviceCards w.innerHeight w.layout a.doc }, .normal⟩

/-- The call `initializeAboutNavigation()`: per nav link the click and hover listeners, then
`switchToSection('about')`, then per nav link the keydown listener. -/
def App.initializeAboutNavigation (a : App) : Outcome App :=
  let a := { a with called := a.called ++ ["initializeAboutNavigation"] }
  let navLinks := querySelectorAll aboutNavLinkSelector a.doc
  let contentSections := querySelectorAll aboutContentSelector a.doc
  if navLinks.length = 0 ∨ contentSections.length = 0 then ⟨a, .normal⟩
  else
    let hover := navLinks.flatMap (fun link =>
      [Listener.aboutClick link, Listener.aboutMouseEnter link, Listener.aboutMouseLeave link])
    let switched := switchToSection navLinks contentSections "about" a.doc
    match switched.completion with
    | .normal =>
      ⟨{ a with
          doc := switched.state
          listeners := a.listeners ++ hover ++ navLinks.map Listener.aboutKeydown }, .normal⟩
    | c => ⟨{ a with doc := switched.state, listeners := a.listeners ++ hover }, c⟩

/-- The function `initializeApp`. -/
def initializeApp (w : Window) (a : App) : Outcome App :=
  (((((((App.initializeScrollAnimations w a).andThen
    App.initializeSmoothScroll).andThen
    App.handlePageLoad).andThen
    (App.initializeResponsiveText w)).andThen
    (App.initializeNavigationActiveStates w)).andThen
    App.initializeScrollEffects).andThen
    (App.initializeParallaxCards w)).andThen
    App.initializeAboutNavigation

/-- The page as `DOMContentLoaded` finds it. -/
def App.load (doc : Document) : App :=
  { doc := doc, textScale := none, listeners := [], revealObserved := [], navObserved := [],
    called := [] }

/-- A browser without `IntersectionObserver`, 1280 by 800. -/
def legacyWindow : Window :=
  { hasIntersectionObserver := false, prefersReducedMotion := false, innerWidth := 1280,
    innerHeight := 800, scrollY := 0, layout := fun _ => Rect.mk 0 0 0 }

/-- A page with a section, a nav link to it, and an About switcher with one nav link and one
content section. -/
def sitePage : Document :=
  [Element.mk "a" ["nav-link"] [("href", "#home")] .unset "" "",
   Element.mk "section" [] [("id", "home")] .unset "" "",
   Element.mk "a" ["about-nav-link"] [("data-section", "about")] .unset "" "",
   Element.mk "div" ["about-content-section"] [("data-content", "about")] .unset "" ""]

/-! ## Theorems -/

/-! ### The DOM model -/

theorem mem_classListAdd (token c : String) (e : Element) :
    c ∈ (classListAdd token e).classList ↔ c = token ∨ c ∈ e.classList := by
  unfold classListAdd
  by_cases h : token ∈ e.classList
  · rw [if_pos h]
    constructor
    · exact fun hc => Or.inr hc
    · rintro (rfl | hc)
      · exact h
      · exact hc
  · rw [if_neg h]
    simp only [List.mem_append, List.mem_singleton]
    tauto

theorem mem_classListRemove (token c : String) (e : Element) :
    c ∈ (classListRemove token e).classList ↔ c ≠ token ∧ c ∈ e.classList := by
  unfold classListRemove
  simp only [List.mem_filter, bne_iff_ne, ne_eq]
  tauto

theorem length_forEach (nodes : List Nat) (f : Element → Element) (doc : Document) :
    (forEach nodes f doc).length = doc.length := by
  induction nodes generalizing doc with
  | nil => rfl
  | cons n ns ih =>
    have step : forEach (n :: ns) f doc = forEach ns f (List.modify f n doc) := rfl
    rw [step, ih, List.length_modify]

theorem getElem?_forEach (nodes : List Nat) (hnd : nodes.Nodup) (f : Element → Element)
    (doc : Document) (j : Nat) :
    (forEach nodes f doc)[j]? = (doc[j]?).map (fun e => if j ∈ nodes then f e else e) := by
  induction nodes generalizing doc with
  | nil => simp [forEach]
  | cons n ns ih =>
    have hn : n ∉ ns := (List.nodup_cons.mp hnd).1
    have hns : ns.Nodup := (List.nodup_cons.mp hnd).2
    have step : forEach (n :: ns) f doc = forEach ns f (List.modify f n doc) := rfl
    rw [step, ih hns, List.getElem?_modify]
    cases hj : doc[j]? with
    | none => simp
    | some e =>
      by_cases hnj : n = j
      · subst hnj
        simp [hn]
      · have : j ≠ n := fun h => hnj h.symm
        simp [hnj, this]

theorem getElem?_mutate (i : Nat) (f : Element → Element) (doc : Document) (j : Nat) :
    (mutate i f doc)[j]? = (doc[j]?).map (fun e => if i = j then f e else e) := by
  unfold mutate
  rw [List.getElem?_modify]
  rfl

theorem nodup_positionsWhere (p : Element → Bool) (doc : Document) :
    (positionsWhere p doc).Nodup :=
  List.Nodup.filter _ (List.nodup_range _)

theorem mem_positionsWhere (p : Element → Bool) (doc : Document) (i : Nat) :
    i ∈ positionsWhere p doc ↔ ∃ e, doc[i]? = some e ∧ p e = true := by
  unfold positionsWhere
  rw [List.mem_filter, List.mem_range]
  constructor
  · rintro ⟨_, h⟩
    cases hd : doc[i]? with
    | none => simp [hd] at h
    | some e => exact ⟨e, rfl, by simpa [hd] using h⟩
  · rintro ⟨e, he, hp⟩
    refine ⟨?_, by simp [he, hp]⟩
    by_contra hlt
    rw [List.getElem?_eq_none (by omega)] at he
    cases he

theorem head?_positionsWhere_eq_some (p : Element → Bool) (doc : Document) (i : Nat) :
    (positionsWhere p doc).head? = some i ↔
      (∃ e, doc[i]? = some e ∧ p e = true) ∧
        ∀ j < i, ∀ e, doc[j]? = some e → p e = false := by
  have hpw : (positionsWhere p doc).Pairwise (· < ·) :=
    List.Pairwise.filter _ (List.pairwise_lt_range _)
  constructor
  · intro h
    obtain ⟨rest, hrest⟩ : ∃ rest, positionsWhere p doc = i :: rest := by
      cases hq : positionsWhere p doc with
      | nil => simp [hq] at h
      | cons k rest => simp [hq] at h; exact ⟨rest, by rw [h]⟩
    have hi : i ∈ positionsWhere p doc := by rw [hrest]; exact List.mem_cons_self _ _
    refine ⟨(mem_positionsWhere p doc i).mp hi, ?_⟩
    intro j hj e he
    by_contra hp
    have hjm : j ∈ positionsWhere p doc :=
      (mem_positionsWhere p doc j).mpr ⟨e, he, by simpa using hp⟩
    rw [hrest] at hjm hpw
    rcases List.mem_cons.mp hjm with h1 | h1
    · omega
    · have := (List.pairwise_cons.mp hpw).1 j h1
      omega
  · rintro ⟨hex, hmin⟩
    have hi : i ∈ positionsWhere p doc := (mem_positionsWhere p doc i).mpr hex
    cases hq : positionsWhere p doc with
    | nil => rw [hq] at hi; cases hi
    | cons k rest =>
      have hk : k ∈ positionsWhere p doc := by rw [hq]; exact List.mem_cons_self _ _
      obtain ⟨e, he, hpe⟩ := (mem_positionsWhere p doc k).mp hk
      rw [hq] at hi hpw
      rcases List.mem_cons.mp hi with h1 | h1
      · simp [h1]
      · have hlt := (List.pairwise_cons.mp hpw).1 i h1
        have := hmin k hlt e he
        rw [this] at hpe
        cases hpe

theorem head?_positionsWhere_eq_none (p : Element → Bool) (doc : Document) :
    (positionsWhere p doc).head? = none ↔
      ∀ (j : Nat) (e : Element), doc[j]? = some e → p e = false := by
  rw [List.head?_eq_none_iff]
  constructor
  · intro h j e he
    by_contra hp
    have : j ∈ positionsWhere p doc :=
      (mem_positionsWhere p doc j).mpr ⟨e, he, by simpa using hp⟩
    rw [h] at this
    cases this
  · intro h
    apply List.eq_nil_iff_forall_not_mem.mpr
    intro j hj
    obtain ⟨e, he, hpe⟩ := (mem_positionsWhere p doc j).mp hj
    rw [h j e he] at hpe
    cases hpe

/-! ### Responsive text scaling -/

/-- C9: for every non-negative integer viewport width `w` the value written to `--text-scale`
lies in `[7/10, 6/5]`, is non-decreasing in `w`, equals `w / 1200` exactly when
`840 ≤ w ≤ 1440`, equals `7/10` for `w ≤ 840` and `6/5` for `w ≥ 1440`. -/
theorem updateTextScale_clamp (w : ℕ) :
    (7 / 10 ≤ updateTextScale w ∧ updateTextScale w ≤ 6 / 5) ∧
    (∀ w' : ℕ, w ≤ w' → updateTextScale w ≤ updateTextScale w') ∧
    (updateTextScale w = (w : ℚ) / 1200 ↔ 840 ≤ w ∧ w ≤ 1440) ∧
    (w ≤ 840 → updateTextScale w = 7 / 10) ∧
    (1440 ≤ w → updateTextScale w = 6 / 5) := by
  have key : ∀ n : ℕ, updateTextScale n = min (max ((n : ℚ) / 1200) (7 / 10)) (6 / 5) := by
    intro n; rfl
  refine ⟨⟨?_, ?_⟩, ?_, ?_, ?_, ?_⟩
  · rw [key]
    exact le_min (le_max_right _ _) (by norm_num)
  · rw [key]
    exact min_le_right _ _
  · intro w' hw
    rw [key, key]
    have hq : (w : ℚ) / 1200 ≤ (w' : ℚ) / 1200 := by
      have : (w : ℚ) ≤ (w' : ℚ) := by exact_mod_cast hw
      linarith
    exact min_le_min (max_le_max hq le_rfl) le_rfl
  · rw [key]
    constructor
    · intro h
      have h1 : (7 : ℚ) / 10 ≤ (w : ℚ) / 1200 := by
        rw [← h]
        exact le_min (le_max_right _ _) (by norm_num)
      have h2 : (w : ℚ) / 1200 ≤ 6 / 5 := by
        rw [← h]
        exact min_le_right _ _
      have h1' : (840 : ℚ) ≤ (w : ℚ) := by linarith
      have h2' : (w : ℚ) ≤ 1440 := by linarith
      exact ⟨by exact_mod_cast h1', by exact_mod_cast h2'⟩
    · rintro ⟨h1, h2⟩
      have h1' : (840 : ℚ) ≤ (w : ℚ) := by exact_mod_cast h1
      have h2' : (w : ℚ) ≤ 1440 := by exact_mod_cast h2
      rw [max_eq_left (by linarith), min_eq_left (by linarith)]
  · intro h
    rw [key]
    have h' : (w : ℚ) ≤ 840 := by exact_mod_cast h
    rw [max_eq_right (by linarith), min_eq_left (by norm_num)]
  · intro h
    rw [key]
    have h' : (1440 : ℚ) ≤ (w : ℚ) := by exact_mod_cast h
    rw [max_eq_left (by linarith), min_eq_right (by linarith)]

/-! ### Service-card parallax -/

/-- Inside the expanded viewport range `updateParallax` writes the template literal with
`baseOffset + parallaxOffset = 100 + 200 * (windowHeight - top) / (windowHeight + height)`
and sets the opacity to `1`. -/
theorem updateParallaxCard_in_range (windowHeight : ℚ) (rect : Rect) (card : Element)
    (hbottom : rect.bottom ≥ -200) (htop : rect.top ≤ windowHeight + 200) :
    (updateParallaxCard windowHeight rect card).transform =
        .parallaxY (100 + 200 * (windowHeight - rect.top) / (windowHeight + rect.height)) ∧
      (updateParallaxCard windowHeight rect card).opacity = "1" := by
  unfold updateParallaxCard
  rw [if_pos ⟨hbottom, htop⟩]
  refine ⟨?_, rfl⟩
  show Transform.parallaxY (parallaxShift windowHeight rect) = _
  unfold parallaxShift
  congr 1
  ring

/-- The shift is non-negative as soon as the window and the card together are at least 400
pixels tall. -/
theorem parallaxShift_nonneg (windowHeight : ℚ) (rect : Rect)
    (htall : 400 ≤ windowHeight + rect.height) (htop : rect.top ≤ windowHeight + 200) :
    0 ≤ parallaxShift windowHeight rect := by
  unfold parallaxShift
  have hpos : (0 : ℚ) < windowHeight + rect.height := by linarith
  have h : -(1 / 2 : ℚ) ≤ (windowHeight - rect.top) / (windowHeight + rect.height) := by
    rw [le_div_iff₀ hpos]
    linarith
  show (0 : ℚ) ≤ 100 + (windowHeight - rect.top) / (windowHeight + rect.height) * 200
  linarith

/-- C8, at a window 320 pixels high and a card 60 pixels high whose top is 520 pixels below
the top of the viewport: the card is inside the expanded range and `windowHeight + height` is
positive, yet the number spliced after the literal minus sign is `-100/19`, so the written
text is `translateY(--5.26...px)`, which is no length. -/
theorem updateParallax_negative_shift (card : Element) :
    (320 : ℚ) + (Rect.mk 520 580 60).height > 0 ∧
    (Rect.mk 520 580 60).bottom ≥ -200 ∧
    (Rect.mk 520 580 60).top ≤ 320 + 200 ∧
    (updateParallaxCard 320 (Rect.mk 520 580 60) card).transform = .parallaxY (-100 / 19) ∧
    parallaxShift 320 (Rect.mk 520 580 60) < 0 ∧
    (updateParallaxCard 320 (Rect.mk 520 580 60) card).transform.wellFormed = false := by
  have hshift : parallaxShift 320 (Rect.mk 520 580 60) = -100 / 19 := by
    unfold parallaxShift
    norm_num
  have htr : (updateParallaxCard 320 (Rect.mk 520 580 60) card).transform
      = .parallaxY (-100 / 19) := by
    unfold updateParallaxCard
    rw [if_pos (by norm_num), ← hshift]
  refine ⟨by norm_num, by norm_num, by norm_num, htr, ?_, ?_⟩
  · rw [hshift]; norm_num
  · rw [htr]
    simp [Transform.wellFormed]
    norm_num

/-! ### Scroll effects -/

/-- The first listener stores `window.scrollY` in `lastScrollY` before the second listener
compares against it, so the comparison never finds a larger value: after every scroll event
the direction is `up`. -/
theorem scrollEvent_direction_up (scrollY : ℚ) (s : ScrollEffects) :
    (scrollEvent scrollY s).scrollDirection = "up" := by
  unfold scrollEvent scrollListenerSecond scrollListenerFirst
  simp only [gt_iff_lt, lt_self_iff_false, if_false]
  split
  · split
    · rw [if_neg (by decide)]
    · rfl
  · rfl

/-- C6, on a page whose only element is an active nav link, initialised at `scrollY = 0` and
then scrolled down to `scrollY = 100`: the event is a scroll down and a `.nav-link.active`
element exists, yet the second listener sets `scrollDirection` to `up` and writes the
box shadow of the upward branch. -/
theorem scrollEvent_down_reports_up :
    (0 : ℚ) < 100 ∧
    querySelector activeNavLinkSelector
      (scrollEvent 100 (initializeScrollEffects 0
        [Element.mk "a" ["nav-link", "active"] [] .unset "" ""])).doc = some 0 ∧
    (scrollEvent 100 (initializeScrollEffects 0
        [Element.mk "a" ["nav-link", "active"] [] .unset "" ""])).scrollDirection = "up" ∧
    ((scrollEvent 100 (initializeScrollEffects 0
        [Element.mk "a" ["nav-link", "active"] [] .unset "" ""])).doc.map
          (fun e => e.boxShadow)) = ["0 2px 8px rgba(255, 215, 0, 0.2)"] := by
  refine ⟨by norm_num, ?_, scrollEvent_direction_up _ _, ?_⟩
  · decide
  · decide

/-- C7 as stated fails on a page whose only element is one story paragraph: after
`handleScrollStart` and `handleScrollEnd` the paragraph still carries the class
`text-blur-on-scroll` that `handleScrollStart` added. -/
theorem scrollEnd_keeps_text_blur :
    (initializeScrollEffects 0
      [Element.mk "p" ["story-paragraph"] [] .unset "" ""]).isScrolling = false ∧
    (initializeScrollEffects 0
      [Element.mk "p" ["story-paragraph"] [] .unset "" ""]).textElements = [0] ∧
    (handleScrollEnd (handleScrollStart (initializeScrollEffects 0
      [Element.mk "p" ["story-paragraph"] [] .unset "" ""]))).doc.map (fun e => e.classList)
        = [["story-paragraph", "text-blur-on-scroll"]] ∧
    ¬ (∀ e ∈ (handleScrollEnd (handleScrollStart (initializeScrollEffects 0
        [Element.mk "p" ["story-paragraph"] [] .unset "" ""]))).doc,
          "scrolling" ∉ e.classList ∧ "text-blur-on-scroll" ∉ e.classList) := by
  refine ⟨rfl, by decide, by decide, ?_⟩
  decide

/-- C7 as the code has it: from a state in which `isScrolling` is false, after
`handleScrollStart` followed by `handleScrollEnd` the flag `isScrolling` is false again, every
text element carries no `scrolling` class but still carries `text-blur-on-scroll`, and every
nav link's inline opacity is the empty string. -/
theorem scrollEnd_after_scrollStart (s : ScrollEffects) (hidle : s.isScrolling = false)
    (htext : s.textElements = querySelectorAll textElementsSelector s.doc)
    (hnav : s.navLinks = querySelectorAll navLinkSelector s.doc) :
    (handleScrollEnd (handleScrollStart s)).isScrolling = false ∧
    (∀ i ∈ s.textElements, ∃ e, (handleScrollEnd (handleScrollStart s)).doc[i]? = some e ∧
        "scrolling" ∉ e.classList ∧ "text-blur-on-scroll" ∈ e.classList) ∧
    (∀ i ∈ s.navLinks, ∃ e, (handleScrollEnd (handleScrollStart s)).doc[i]? = some e ∧
        e.opacity = "") := by
  have htnd : s.textElements.Nodup := by rw [htext]; exact nodup_positionsWhere _ _
  have hnnd : s.navLinks.Nodup := by rw [hnav]; exact nodup_positionsWhere _ _
  have hstart : handleScrollStart s =
      { s with
        isScrolling := true
        doc := forEach s.navLinks
          (fun link =>
            if !classListContains "active" link then { link with opacity := "0.6" } else link)
          (forEach s.textElements
            (fun element =>
              classListAdd "scrolling" (classListAdd "text-blur-on-scroll" element)) s.doc) } := by
    unfold handleScrollStart
    simp [hidle]
  rw [hstart]
  refine ⟨rfl, ?_, ?_⟩
  · intro i hi
    have hi' := hi
    rw [htext] at hi'
    obtain ⟨e0, he0, _⟩ := (mem_positionsWhere _ _ i).mp hi'
    simp only [handleScrollEnd]
    rw [getElem?_forEach _ hnnd, getElem?_forEach _ htnd, getElem?_forEach _ hnnd,
      getElem?_forEach _ htnd, he0]
    simp only [Option.map_some', if_pos hi]
    refine ⟨_, rfl, ?_, ?_⟩
    · by_cases hn : i ∈ s.navLinks
      · simp only [if_pos hn]
        intro hmem
        have := (mem_classListRemove "scrolling" "scrolling" _).mp hmem
        exact this.1 rfl
      · simp only [if_neg hn]
        intro hmem
        have := (mem_classListRemove "scrolling" "scrolling" _).mp hmem
        exact this.1 rfl
    · have hadd : "text-blur-on-scroll" ∈
          (classListAdd "scrolling" (classListAdd "text-blur-on-scroll" e0)).classList :=
        (mem_classListAdd _ _ _).mpr (Or.inr ((mem_classListAdd _ _ _).mpr (Or.inl rfl)))
      have hkeep : ∀ e : Element, "text-blur-on-scroll" ∈ e.classList →
          "text-blur-on-scroll" ∈ (classListRemove "scrolling" e).classList := fun e he =>
        (mem_classListRemove _ _ _).mpr ⟨by decide, he⟩
      by_cases hn : i ∈ s.navLinks
      · simp only [if_pos hn]
        apply hkeep
        split
        · exact hadd
        · exact hadd
      · simp only [if_neg hn]
        exact hkeep _ hadd
  · intro i hi
    have hi' := hi
    rw [hnav] at hi'
    obtain ⟨e0, he0, _⟩ := (mem_positionsWhere _ _ i).mp hi'
    simp only [handleScrollEnd]
    rw [getElem?_forEach _ hnnd, getElem?_forEach _ htnd, getElem?_forEach _ hnnd,
      getElem?_forEach _ htnd, he0]
    simp only [Option.map_some', if_pos hi]
    exact ⟨_, rfl, rfl⟩

/-- C7 (witness): the amended statement at a page with one story paragraph and one nav link. -/
theorem scrollEnd_after_scrollStart_witness :
    (handleScrollEnd (handleScrollStart (initializeScrollEffects 0
      [Element.mk "p" ["story-paragraph"] [] .unset "" "",
       Element.mk "a" ["nav-link"] [] .unset "" ""]))).isScrolling = false ∧
    (∀ i ∈ (initializeScrollEffects 0
      [Element.mk "p" ["story-paragraph"] [] .unset "" "",
       Element.mk "a" ["nav-link"] [] .unset "" ""]).textElements,
      ∃ e, (handleScrollEnd (handleScrollStart (initializeScrollEffects 0
        [Element.mk "p" ["story-paragraph"] [] .unset "" "",
         Element.mk "a" ["nav-link"] [] .unset "" ""]))).doc[i]? = some e ∧
        "scrolling" ∉ e.classList ∧ "text-blur-on-scroll" ∈ e.classList) ∧
    (∀ i ∈ (initializeScrollEffects 0
      [Element.mk "p" ["story-paragraph"] [] .unset "" "",
       Element.mk "a" ["nav-link"] [] .unset "" ""]).navLinks,
      ∃ e, (handleScrollEnd (handleScrollStart (initializeScrollEffects 0
        [Element.mk "p" ["story-paragraph"] [] .unset "" "",
         Element.mk "a" ["nav-link"] [] .unset "" ""]))).doc[i]? = some e ∧
        e.opacity = "") :=
  scrollEnd_after_scrollStart _ rfl rfl rfl

/-! ### Scroll-triggered reveal -/

theorem revealCallback_append (s : Reveal) (xs ys : List Entry) :
    revealCallback s (xs ++ ys) = revealCallback (revealCallback s xs) ys := by
  unfold revealCallback
  rw [List.foldl_append]

theorem revealCallback_cons (s : Reveal) (x : Entry) (xs : List Entry) :
    revealCallback s (x :: xs) = revealCallback (revealEntry s x) xs := rfl

theorem revealBatches_eq_flatten (s : Reveal) (batches : List (List Entry)) :
    revealBatches s batches = revealCallback s batches.flatten := by
  induction batches generalizing s with
  | nil => rfl
  | cons b bs ih =>
    have step : revealBatches s (b :: bs) = revealBatches (revealCallback s b) bs := rfl
    rw [step, ih, List.flatten_cons, revealCallback_append]

theorem mem_unobserve (target i : Nat) (observed : List Nat) :
    i ∈ unobserve target observed ↔ i ≠ target ∧ i ∈ observed := by
  unfold unobserve
  simp only [List.mem_filter, bne_iff_ne, ne_eq]
  tauto

theorem revealEntry_observed_subset (s : Reveal) (entry : Entry) (i : Nat)
    (hi : i ∈ (revealEntry s entry).observed) : i ∈ s.observed := by
  unfold revealEntry at hi
  split at hi
  · exact ((mem_unobserve _ _ _).mp hi).2
  · exact hi

theorem revealEntry_length (s : Reveal) (entry : Entry) :
    (revealEntry s entry).doc.length = s.doc.length := by
  unfold revealEntry
  split
  · simp [mutate]
  · rfl

theorem revealCallback_observed_subset (s : Reveal) (entries : List Entry) (i : Nat)
    (hi : i ∈ (revealCallback s entries).observed) : i ∈ s.observed := by
  induction entries generalizing s with
  | nil => exact hi
  | cons x xs ih =>
    rw [revealCallback_cons] at hi
    exact revealEntry_observed_subset s x i (ih _ hi)

theorem revealCallback_length (s : Reveal) (entries : List Entry) :
    (revealCallback s entries).doc.length = s.doc.length := by
  induction entries generalizing s with
  | nil => rfl
  | cons x xs ih => rw [revealCallback_cons, ih, revealEntry_length]

theorem revealEntry_classes_grow (s : Reveal) (entry : Entry) (i : Nat) (e : Element)
    (he : s.doc[i]? = some e) :
    ∃ e', (revealEntry s entry).doc[i]? = some e' ∧ ∀ c ∈ e.classList, c ∈ e'.classList := by
  unfold revealEntry
  split
  · simp only [getElem?_mutate, he, Option.map_some']
    refine ⟨_, rfl, ?_⟩
    intro c hc
    split
    · exact (mem_classListAdd _ _ _).mpr (Or.inr hc)
    · exact hc
  · exact ⟨e, he, fun c hc => hc⟩

theorem revealCallback_classes_grow (s : Reveal) (entries : List Entry) (i : Nat) (e : Element)
    (he : s.doc[i]? = some e) :
    ∃ e', (revealCallback s entries).doc[i]? = some e' ∧
      ∀ c ∈ e.classList, c ∈ e'.classList := by
  induction entries generalizing s e with
  | nil => exact ⟨e, he, fun c hc => hc⟩
  | cons x xs ih =>
    obtain ⟨e1, he1, h1⟩ := revealEntry_classes_grow s x i e he
    obtain ⟨e2, he2, h2⟩ := ih (revealEntry s x) e1 he1
    exact ⟨e2, by rw [revealCallback_cons]; exact he2, fun c hc => h2 c (h1 c hc)⟩

theorem observedOnly_split (s : Reveal) (before : List Entry) (entry : Entry)
    (after : List Entry) (h : observedOnly s (before ++ entry :: after) = true) :
    entry.target ∈ (revealCallback s before).observed ∧
      observedOnly (revealEntry (revealCallback s before) entry) after = true := by
  induction before generalizing s with
  | nil =>
    simp only [List.nil_append, observedOnly, Bool.and_eq_true, decide_eq_true_eq] at h
    exact h
  | cons x xs ih =>
    simp only [List.cons_append, observedOnly, Bool.and_eq_true, decide_eq_true_eq] at h
    rw [revealCallback_cons]
    exact ih _ h.2

theorem observedOnly_targets (s : Reveal) (entries : List Entry)
    (h : observedOnly s entries = true) : ∀ x ∈ entries, x.target ∈ s.observed := by
  induction entries generalizing s with
  | nil => intro x hx; cases hx
  | cons y ys ih =>
    simp only [observedOnly, Bool.and_eq_true, decide_eq_true_eq] at h
    intro x hx
    rcases List.mem_cons.mp hx with rfl | hx
    · exact h.1
    · exact revealEntry_observed_subset s y _ (ih _ h.2 x hx)

theorem revealCallback_singleton (s : Reveal) (entry : Entry) :
    revealCallback s [entry] = revealEntry s entry := rfl

theorem classListAdd_of_mem (token : String) (e : Element) (h : token ∈ e.classList) :
    classListAdd token e = e := by
  unfold classListAdd
  rw [if_pos h]

theorem classListAdd_idem (token : String) (e : Element) :
    classListAdd token (classListAdd token e) = classListAdd token e :=
  classListAdd_of_mem token _ ((mem_classListAdd token token e).mpr (Or.inl rfl))

/-- The result of the callback on a list of entries, element by element and for the observed
targets. -/
theorem revealCallback_result (entries : List Entry) (s : Reveal) :
    (∀ (i : Nat) (e : Element), s.doc[i]? = some e →
      (revealCallback s entries).doc[i]? =
        some (if entries.any (fun entry => entry.isIntersecting && entry.target == i)
          then classListAdd "animate-in" e else e)) ∧
    (revealCallback s entries).observed =
      s.observed.filter
        (fun t => !entries.any (fun entry => entry.isIntersecting && entry.target == t)) := by
  induction entries generalizing s with
  | nil =>
    refine ⟨fun i e he => by simpa [revealCallback] using he, ?_⟩
    simp [revealCallback]
  | cons x xs ih =>
    rw [revealCallback_cons]
    obtain ⟨ihdoc, ihobs⟩ := ih (revealEntry s x)
    by_cases hx : x.isIntersecting = true
    · have hstep : revealEntry s x =
          { doc := mutate x.target (classListAdd "animate-in") s.doc
            observed := unobserve x.target s.observed } := by
        unfold revealEntry
        rw [if_pos hx]
      constructor
      · intro i e he
        have h1 : (revealEntry s x).doc[i]? =
            some (if x.target = i then classListAdd "animate-in" e else e) := by
          rw [hstep]
          simp only [getElem?_mutate, he, Option.map_some']
        rw [ihdoc i _ h1]
        by_cases hi : x.target = i
        · simp [hx, hi, classListAdd_idem]
        · simp [hx, hi]
      · rw [ihobs, hstep]
        simp only [unobserve, List.filter_filter]
        apply List.filter_congr
        intro t _
        by_cases ht : x.target = t
        · simp [hx, ht]
        · have ht' : ¬ t = x.target := fun h => ht h.symm
          have h1 : (t != x.target) = true := by simpa using ht'
          have h2 : (x.target == t) = false := by simpa using ht
          cases hany : xs.any (fun entry => entry.isIntersecting && entry.target == t) <;>
            simp [hx, h1, h2, hany]
    · have hstep : revealEntry s x = s := by
        unfold revealEntry
        rw [if_neg hx]
      have hf : x.isIntersecting = false := by simpa using hx
      rw [hstep] at ihdoc ihobs ⊢
      constructor
      · intro i e he
        rw [ihdoc i e he]
        simp [hf]
      · rw [ihobs]
        simp [hf]

theorem queuedWhileObserved_split (s : Reveal) (earlier rest : List (List Entry))
    (h : queuedWhileObserved s (earlier ++ rest) = true) :
    queuedWhileObserved (revealBatches s earlier) rest = true := by
  induction earlier generalizing s with
  | nil => exact h
  | cons b bs ih =>
    simp only [List.cons_append, queuedWhileObserved, Bool.and_eq_true] at h
    exact ih _ h.2

theorem revealBatches_observed_subset (s : Reveal) (batches : List (List Entry)) (i : Nat)
    (hi : i ∈ (revealBatches s batches).observed) : i ∈ s.observed := by
  rw [revealBatches_eq_flatten] at hi
  exact revealCallback_observed_subset s _ i hi

theorem queuedWhileObserved_targets (s : Reveal) (batches : List (List Entry))
    (h : queuedWhileObserved s batches = true) :
    ∀ b ∈ batches, ∀ x ∈ b, x.target ∈ s.observed := by
  induction batches generalizing s with
  | nil => intro b hb; cases hb
  | cons c cs ih =>
    simp only [queuedWhileObserved, Bool.and_eq_true, List.all_eq_true,
      decide_eq_true_eq] at h
    intro b hb x hx
    rcases List.mem_cons.mp hb with rfl | hb
    · exact h.1 x hx
    · exact revealCallback_observed_subset s c _ (ih _ h.2 b hb x hx)

/-- Where every entry is delivered for a target that is observed when the entry is processed,
and the observed targets are elements of the document, the property holds as C3 states it. -/
theorem animatesOnce_of_observedOnly (s : Reveal) (batches : List (List Entry))
    (hvalid : ∀ i ∈ s.observed, i < s.doc.length)
    (hobserved : observedOnly s batches.flatten = true) :
    AnimatesOnce s batches := by
  intro before entry after hsplit
  rw [hsplit] at hobserved
  obtain ⟨htarget, hafter⟩ := observedOnly_split s before entry after hobserved
  have hlt : entry.target < (revealCallback s before).doc.length := by
    rw [revealCallback_length]
    exact hvalid _ (revealCallback_observed_subset s before _ htarget)
  refine ⟨?_, ?_, ?_⟩
  · intro hint
    have hstep : revealEntry (revealCallback s before) entry =
        { doc := mutate entry.target (classListAdd "animate-in") (revealCallback s before).doc
          observed := unobserve entry.target (revealCallback s before).observed } := by
      unfold revealEntry
      rw [if_pos hint]
    have hnot : entry.target ∉ (revealEntry (revealCallback s before) entry).observed := by
      rw [hstep]
      intro hmem
      exact ((mem_unobserve _ _ _).mp hmem).1 rfl
    refine ⟨?_, hnot, ?_⟩
    · rw [hstep]
      simp only [getElem?_mutate, List.getElem?_eq_getElem hlt, Option.map_some', if_true]
      exact ⟨_, rfl, (mem_classListAdd _ _ _).mpr (Or.inl rfl)⟩
    · intro later hlater heq
      have := observedOnly_targets _ after hafter later hlater
      rw [heq] at this
      exact hnot this
  · intro hint
    unfold revealEntry
    rw [if_neg (by simp [hint])]
  · intro i e he
    rw [revealBatches_eq_flatten, hsplit, revealCallback_append]
    exact revealCallback_classes_grow _ _ i e he

/-- C3 as stated fails on a page with one story text block, observed, that scrolls into view,
out and in again before the callback runs: the browser queued the three entries while the
block was observed, the first entry removes the block from the observed set, and the third
entry, for the same block, is processed all the same. The same holds of a batch with two
intersecting entries for the block. -/
theorem reveal_processes_removed_target_again :
    initializeScrollAnimations true storyPage = some (Reveal.mk storyPage [0]) ∧
    (queuedWhileObserved (Reveal.mk storyPage [0])
        [[Entry.mk true 0, Entry.mk false 0, Entry.mk true 0]] = true ∧
      (revealCallback (Reveal.mk storyPage [0]) [Entry.mk true 0]).observed = [] ∧
      ¬ AnimatesOnce (Reveal.mk storyPage [0])
        [[Entry.mk true 0, Entry.mk false 0, Entry.mk true 0]]) ∧
    (queuedWhileObserved (Reveal.mk storyPage [0])
        [[Entry.mk true 0, Entry.mk true 0]] = true ∧
      ¬ AnimatesOnce (Reveal.mk storyPage [0]) [[Entry.mk true 0, Entry.mk true 0]]) := by
  refine ⟨by decide, ⟨by decide, by decide, ?_⟩, by decide, ?_⟩
  · intro h
    have h1 := (h [] (Entry.mk true 0) [Entry.mk false 0, Entry.mk true 0] rfl).1 rfl
    exact h1.2.2 (Entry.mk true 0) (by simp) rfl
  · intro h
    have h1 := (h [] (Entry.mk true 0) [Entry.mk true 0] rfl).1 rfl
    exact h1.2.2 (Entry.mk true 0) (by simp) rfl

/-- C3 as the callback has it, for every state and every sequence of batches: the entries are
processed in order; an intersecting entry has `animate-in` added to its target and the target
unobserved, a non-intersecting entry changes nothing; at the end every element carries what it
carried before plus `animate-in` if an intersecting entry had it as target, the observed
targets are the former ones less those targets, and an element that carried `animate-in` is
unchanged, so the class is added to an element at most once and never removed; and where the
browser queues entries only for observed targets, no later batch has an entry for a target
that an intersecting entry removed. -/
theorem reveal_animates_once (s : Reveal) (batches : List (List Entry)) :
    RevealOnce s batches := by
  obtain ⟨hdoc, hobs⟩ := revealCallback_result batches.flatten s
  refine ⟨revealBatches_eq_flatten s batches, ?_, ?_, ?_, ?_, ?_⟩
  · intro before entry after _
    rw [revealCallback_append, revealCallback_singleton]
    constructor
    · intro hint
      unfold revealEntry
      rw [if_pos hint]
    · intro hint
      unfold revealEntry
      rw [if_neg (by simp [hint])]
  · intro i e he
    rw [revealBatches_eq_flatten]
    exact hdoc i e he
  · rw [revealBatches_eq_flatten]
    exact hobs
  · intro i e he hmem
    rw [revealBatches_eq_flatten, hdoc i e he]
    split
    · rw [classListAdd_of_mem _ _ hmem]
    · rfl
  · intro hqueued earlier batch later hsplit entry hentry hint b hb x hx heq
    rw [hsplit] at hqueued
    have h1 := queuedWhileObserved_split s earlier (batch :: later) hqueued
    simp only [queuedWhileObserved, Bool.and_eq_true] at h1
    have h2 := queuedWhileObserved_targets _ later h1.2 b hb x hx
    rw [(revealCallback_result batch (revealBatches s earlier)).2, heq] at h2
    have h3 := (List.mem_filter.mp h2).2
    have h4 : batch.any (fun y => y.isIntersecting && y.target == entry.target) = true :=
      List.any_eq_true.mpr ⟨entry, hentry, by simp [hint]⟩
    rw [h4] at h3
    cases h3

/-- C3 (witness): two story text blocks, both observed; the first batch reveals the first block
and reports the second as not intersecting, the second batch reveals the second block. -/
theorem reveal_animates_once_witness :
    initializeScrollAnimations true
        [Element.mk "div" ["story-text-block"] [] .unset "" "",
         Element.mk "div" ["story-text-block"] [] .unset "" ""] =
      some (Reveal.mk
        [Element.mk "div" ["story-text-block"] [] .unset "" "",
         Element.mk "div" ["story-text-block"] [] .unset "" ""] [0, 1]) ∧
    queuedWhileObserved
      (Reveal.mk
        [Element.mk "div" ["story-text-block"] [] .unset "" "",
         Element.mk "div" ["story-text-block"] [] .unset "" ""] [0, 1])
      [[Entry.mk true 0, Entry.mk false 1], [Entry.mk true 1]] = true ∧
    revealBatches
      (Reveal.mk
        [Element.mk "div" ["story-text-block"] [] .unset "" "",
         Element.mk "div" ["story-text-block"] [] .unset "" ""] [0, 1])
      [[Entry.mk true 0, Entry.mk false 1], [Entry.mk true 1]] =
      Reveal.mk
        [Element.mk "div" ["story-text-block", "animate-in"] [] .unset "" "",
         Element.mk "div" ["story-text-block", "animate-in"] [] .unset "" ""] [] ∧
    RevealOnce
      (Reveal.mk
        [Element.mk "div" ["story-text-block"] [] .unset "" "",
         Element.mk "div" ["story-text-block"] [] .unset "" ""] [0, 1])
      [[Entry.mk true 0, Entry.mk false 1], [Entry.mk true 1]] :=
  ⟨by decide, by decide, by decide, reveal_animates_once _ _⟩

/-! ### Selector text -/

theorem splicedValue_plain (cs acc : List Char)
    (h : cs.all (fun c => !(c = quoteChar || c = backslashChar || isNewline c || c = nulChar))
      = true) :
    splicedValue acc cs = some (some (acc ++ cs)) := by
  induction cs generalizing acc with
  | nil => simp [splicedValue]
  | cons c rest ih =>
    simp only [List.all_cons, Bool.and_eq_true, Bool.not_eq_true', Bool.or_eq_false_iff,
      decide_eq_false_iff_not] at h
    obtain ⟨⟨⟨⟨h1, h2⟩, h3⟩, h4⟩, hrest⟩ := h
    unfold splicedValue
    rw [if_neg h1, if_neg h2, if_neg (by simp [h3]), if_neg h4, ih _ hrest]
    simp

theorem attributeSelectorText_plain (cls attr t : String) (ht : cssPlain t = true) :
    attributeSelectorText cls attr t = .selector [[.cls cls, .attrEq attr t]] := by
  unfold attributeSelectorText
  rw [splicedValue_plain _ _ ht]
  simp

theorem matches_class_attr (c a v : String) (e : Element) :
    Selector.matches [[.cls c, .attrEq a v]] e = true ↔
      c ∈ e.classList ∧ e.getAttribute a = some v := by
  simp [Selector.matches, Simple.matches]

theorem querySelector_eq_some (sel : Selector) (doc : Document) (i : Nat) :
    querySelector sel doc = some i ↔ FirstMatch doc (fun e => sel.matches e = true) i := by
  unfold querySelector querySelectorAll FirstMatch
  rw [head?_positionsWhere_eq_some]
  simp only [Bool.not_eq_true]

theorem querySelector_eq_none (sel : Selector) (doc : Document) :
    querySelector sel doc = none ↔
      ∀ (j : Nat) (e : Element), doc[j]? = some e → sel.matches e = false := by
  unfold querySelector querySelectorAll
  exact head?_positionsWhere_eq_none _ _

theorem firstMatch_congr (doc doc' : Document) (g : Nat → Element → Element)
    (p q : Element → Prop) (hdoc : ∀ j, doc'[j]? = (doc[j]?).map (g j))
    (hp : ∀ j e, p (g j e) ↔ q e) (i : Nat) :
    FirstMatch doc' p i ↔ FirstMatch doc q i := by
  unfold FirstMatch
  constructor
  · rintro ⟨⟨e', he', hpe'⟩, hmin⟩
    rw [hdoc] at he'
    cases he : doc[i]? with
    | none => rw [he] at he'; cases he'
    | some e =>
      rw [he] at he'
      simp only [Option.map_some', Option.some.injEq] at he'
      subst he'
      refine ⟨⟨e, rfl, (hp i e).mp hpe'⟩, ?_⟩
      intro j hj x hx hq
      exact hmin j hj (g j x) (by rw [hdoc, hx]; rfl) ((hp j x).mpr hq)
  · rintro ⟨⟨e, he, hqe⟩, hmin⟩
    refine ⟨⟨g i e, by rw [hdoc, he]; rfl, (hp i e).mpr hqe⟩, ?_⟩
    intro j hj x' hx' hpx'
    rw [hdoc] at hx'
    cases hx : doc[j]? with
    | none => rw [hx] at hx'; cases hx'
    | some x =>
      rw [hx] at hx'
      simp only [Option.map_some', Option.some.injEq] at hx'
      subst hx'
      exact hmin j hj x hx ((hp j x).mp hpx')

theorem firstMatch_unique (doc : Document) (p : Element → Prop) (i j : Nat)
    (hi : FirstMatch doc p i) (hj : FirstMatch doc p j) : i = j := by
  obtain ⟨⟨ei, hei, hpi⟩, hmini⟩ := hi
  obtain ⟨⟨ej, hej, hpj⟩, hminj⟩ := hj
  rcases Nat.lt_trichotomy i j with h | h | h
  · exact absurd hpi (hminj i h ei hei)
  · exact h
  · exact absurd hpj (hmini j h ej hej)

theorem getAttribute_classListRemove (token a : String) (e : Element) :
    (classListRemove token e).getAttribute a = e.getAttribute a := rfl

theorem getAttribute_classListAdd (token a : String) (e : Element) :
    (classListAdd token e).getAttribute a = e.getAttribute a := by
  unfold classListAdd
  split <;> rfl

/-! ### About section switcher -/

theorem mem_querySelectorAll_cls (c : String) (doc : Document) (i : Nat) (e : Element)
    (he : doc[i]? = some e) : i ∈ querySelectorAll [[.cls c]] doc ↔ c ∈ e.classList := by
  unfold querySelectorAll
  rw [mem_positionsWhere]
  constructor
  · rintro ⟨e', he', hm⟩
    rw [he] at he'
    cases he'
    simpa [Selector.matches, Simple.matches] using hm
  · intro hc
    exact ⟨e, he, by simpa [Selector.matches, Simple.matches] using hc⟩

theorem getElem?_addActive (o : Option Nat) (d : Document) (j : Nat) :
    (match o with
      | some k => mutate k (classListAdd "active") d
      | none => d)[j]? =
      (d[j]?).map (fun e => if o = some j then classListAdd "active" e else e) := by
  cases o with
  | none => simp
  | some k =>
    simp only [getElem?_mutate, Option.some.injEq]

/-- What `switchToSection(t)` does for plain `t`, element by element: afterwards an element
carries `active` exactly when it is the first nav link with `data-section` `t`, or the first
content section with `data-content` `t`, or it carried `active` before and is neither a nav
link nor a content section. -/
theorem switchToSection_spec (doc : Document) (t : String) (ht : cssPlain t = true) :
    (switchToSection (querySelectorAll aboutNavLinkSelector doc)
        (querySelectorAll aboutContentSelector doc) t doc).completion = .normal ∧
    ∀ (i : Nat) (e : Element), doc[i]? = some e →
      ∃ e', (switchToSection (querySelectorAll aboutNavLinkSelector doc)
        (querySelectorAll aboutContentSelector doc) t doc).state[i]? = some e' ∧
        ("active" ∈ e'.classList ↔
          FirstMatch doc
            (fun x => "about-nav-link" ∈ x.classList ∧
              x.getAttribute "data-section" = some t) i ∨
          FirstMatch doc
            (fun x => "about-content-section" ∈ x.classList ∧
              x.getAttribute "data-content" = some t) i ∨
          ("active" ∈ e.classList ∧ "about-nav-link" ∉ e.classList ∧
            "about-content-section" ∉ e.classList)) := by
  have hN : (querySelectorAll aboutNavLinkSelector doc).Nodup := nodup_positionsWhere _ _
  have hC : (querySelectorAll aboutContentSelector doc).Nodup := nodup_positionsWhere _ _
  -- the document after the two `forEach` loops
  have hdoc2 : ∀ j, (forEach (querySelectorAll aboutContentSelector doc)
        (fun section_ => classListRemove "active" section_)
        (forEach (querySelectorAll aboutNavLinkSelector doc)
          (fun link => classListRemove "active" link) doc))[j]? =
      (doc[j]?).map (fun e =>
        (if j ∈ querySelectorAll aboutContentSelector doc then classListRemove "active"
          (if j ∈ querySelectorAll aboutNavLinkSelector doc then classListRemove "active" e
            else e)
        else (if j ∈ querySelectorAll aboutNavLinkSelector doc then classListRemove "active" e
            else e))) := by
    intro j
    rw [getElem?_forEach _ hC, getElem?_forEach _ hN, Option.map_map]
    rfl
  generalize hd2 : forEach (querySelectorAll aboutContentSelector doc)
        (fun section_ => classListRemove "active" section_)
        (forEach (querySelectorAll aboutNavLinkSelector doc)
          (fun link => classListRemove "active" link) doc) = doc2 at hdoc2
  have hout : switchToSection (querySelectorAll aboutNavLinkSelector doc)
      (querySelectorAll aboutContentSelector doc) t doc =
      ⟨match querySelector [[.cls "about-content-section", .attrEq "data-content" t]]
          (match querySelector [[.cls "about-nav-link", .attrEq "data-section" t]] doc2 with
            | some link => mutate link (classListAdd "active") doc2
            | none => doc2) with
        | some content => mutate content (classListAdd "active")
            (match querySelector [[.cls "about-nav-link", .attrEq "data-section" t]] doc2 with
              | some link => mutate link (classListAdd "active") doc2
              | none => doc2)
        | none =>
            (match querySelector [[.cls "about-nav-link", .attrEq "data-section" t]] doc2 with
              | some link => mutate link (classListAdd "active") doc2
              | none => doc2), .normal⟩ := by
    unfold switchToSection
    simp only [attributeSelectorText_plain _ _ _ ht, documentQuerySelector, hd2]
  rw [hout]
  refine ⟨rfl, ?_⟩
  generalize hoL : querySelector [[.cls "about-nav-link", .attrEq "data-section" t]] doc2 = oL
  have hdoc3 := getElem?_addActive oL doc2
  generalize hd3 : (match oL with
      | some link => mutate link (classListAdd "active") doc2
      | none => doc2) = doc3 at hdoc3
  generalize hoS :
    querySelector [[.cls "about-content-section", .attrEq "data-content" t]] doc3 = oS
  have hdoc4 := getElem?_addActive oS doc3
  -- the first matches, read off the original document
  have hL : ∀ i, oL = some i ↔ FirstMatch doc
      (fun x => "about-nav-link" ∈ x.classList ∧ x.getAttribute "data-section" = some t) i := by
    intro i
    rw [← hoL, querySelector_eq_some]
    apply firstMatch_congr doc doc2 _ _ _ hdoc2
    intro j e
    rw [matches_class_attr]
    split <;> split <;>
      simp [mem_classListRemove, getAttribute_classListRemove]
  have hS : ∀ i, oS = some i ↔ FirstMatch doc
      (fun x => "about-content-section" ∈ x.classList ∧
        x.getAttribute "data-content" = some t) i := by
    intro i
    rw [← hoS, querySelector_eq_some]
    have hdoc3' : ∀ j, doc3[j]? = (doc[j]?).map (fun e =>
        (fun e => if oL = some j then classListAdd "active" e else e)
        ((if j ∈ querySelectorAll aboutContentSelector doc then classListRemove "active"
          (if j ∈ querySelectorAll aboutNavLinkSelector doc then classListRemove "active" e
            else e)
        else (if j ∈ querySelectorAll aboutNavLinkSelector doc then classListRemove "active" e
            else e)))) := by
      intro j
      rw [hdoc3, hdoc2, Option.map_map]
      rfl
    apply firstMatch_congr doc doc3 _ _ _ hdoc3'
    intro j e
    rw [matches_class_attr]
    split <;> split <;> split <;>
      simp [mem_classListRemove, mem_classListAdd, getAttribute_classListRemove,
        getAttribute_classListAdd]
  intro i e he
  have hiN := mem_querySelectorAll_cls "about-nav-link" doc i e he
  have hiC := mem_querySelectorAll_cls "about-content-section" doc i e he
  change (i ∈ querySelectorAll aboutNavLinkSelector doc ↔ _) at hiN
  change (i ∈ querySelectorAll aboutContentSelector doc ↔ _) at hiC
  rw [hdoc4, hdoc3, hdoc2, he]
  refine ⟨_, rfl, ?_⟩
  rw [← hL i, ← hS i]
  by_cases hn : "about-nav-link" ∈ e.classList <;>
    by_cases hc : "about-content-section" ∈ e.classList <;>
    by_cases h1 : oL = some i <;> by_cases h2 : oS = some i <;>
    simp [hiN, hiC, hn, hc, h1, h2, mem_classListRemove, mem_classListAdd]

theorem afterSwitch_eq_some (doc : Document) (t : String) (out : Outcome Document)
    (h : afterSwitch doc t = some out) :
    out = switchToSection (querySelectorAll aboutNavLinkSelector doc)
      (querySelectorAll aboutContentSelector doc) t doc := by
  unfold afterSwitch at h
  simp only at h
  split at h
  · cases h
  · exact (Option.some.inj h).symm

theorem afterSwitch_of_guard (doc : Document) (t : String)
    (hnav : (querySelectorAll aboutNavLinkSelector doc).length ≠ 0)
    (hcontent : (querySelectorAll aboutContentSelector doc).length ≠ 0) :
    afterSwitch doc t = some (switchToSection (querySelectorAll aboutNavLinkSelector doc)
      (querySelectorAll aboutContentSelector doc) t doc) := by
  unfold afterSwitch
  simp only
  rw [if_neg]
  rintro (h | h)
  · exact hnav h
  · exact hcontent h

/-- On a page whose About switcher has nothing for `about`, the call `switchToSection('about')`
of the initialisation leaves no nav link and no content section active. -/
theorem initializeAboutNavigation_without_about :
    (App.initializeAboutNavigation (App.load teamOnlyPage)).state.doc.map
      (fun e => e.classList) = [["about-nav-link"], ["about-content-section"]] := by
  decide

/-- C1 as stated fails twice, each time at a call the script makes. On a page whose only
element is both a nav link (for `x`) and a content section (for `y`), a click on that link
calls `switchToSection("x")`, which leaves the element, a content section, active although
its `data-content` is not `x`. On a page with a nav link whose `data-section` holds a line
feed (neither a double quote nor a backslash) and its content section, a click on the link
passes that text, `querySelector` throws after the `active` classes were removed, and the nav
link whose `data-section` is the target is not active. -/
theorem switchToSection_not_exclusive :
    (passedToSwitch overlapPage "x" = true ∧ noQuoteOrBackslash "x" = true ∧
      ¬ ContentSectionsExclusive overlapPage "x") ∧
    (passedToSwitch twoLinePage twoLines = true ∧ noQuoteOrBackslash twoLines = true ∧
      (afterSwitch twoLinePage twoLines).map (fun out => out.completion) = some .syntaxError ∧
      ¬ NavLinksExclusive twoLinePage twoLines) := by
  refine ⟨⟨by decide, by decide, ?_⟩, by decide, by decide, by decide, ?_⟩
  · intro h
    obtain ⟨e', he', hiff⟩ :=
      h _ (afterSwitch_of_guard overlapPage "x" (by decide) (by decide)) 0 _ rfl (by decide)
    have hst : (switchToSection (querySelectorAll aboutNavLinkSelector overlapPage)
        (querySelectorAll aboutContentSelector overlapPage) "x" overlapPage).state =
        [Element.mk "div" ["about-nav-link", "about-content-section", "active"]
          [("data-section", "x"), ("data-content", "y")] .unset "" ""] := by decide
    rw [hst] at he'
    simp only [List.getElem?_cons_zero, Option.some.injEq] at he'
    subst he'
    obtain ⟨⟨e, he, _, hattr⟩, _⟩ := hiff.mp (by decide)
    simp only [overlapPage, List.getElem?_cons_zero, Option.some.injEq] at he
    subst he
    revert hattr
    decide
  · intro h
    obtain ⟨e', he', hiff⟩ :=
      h _ (afterSwitch_of_guard twoLinePage twoLines (by decide) (by decide)) 0 _ rfl
        (by decide)
    have hst : (switchToSection (querySelectorAll aboutNavLinkSelector twoLinePage)
        (querySelectorAll aboutContentSelector twoLinePage) twoLines twoLinePage).state =
        twoLinePage := by decide
    rw [hst] at he'
    simp only [twoLinePage, List.getElem?_cons_zero, Option.some.injEq] at he'
    subst he'
    have hfirst : FirstMatch twoLinePage
        (fun x => "about-nav-link" ∈ x.classList ∧
          x.getAttribute "data-section" = some twoLines) 0 :=
      ⟨⟨_, rfl, by decide, by decide⟩, fun j hj => absurd hj (Nat.not_lt_zero j)⟩
    have hact := hiff.mpr hfirst
    revert hact
    decide

/-- C1 with its two provisos: for every page on which no element is both a nav link and a
content section of the About switcher, and every target `t` without double quote, backslash,
line break or NUL, `switchToSection(t)` (which exists when the page has a nav link and a
content section) returns normally, afterwards a nav link carries `active` exactly when it is
the first nav link whose `data-section` is `t`, and a content section carries `active` exactly
when it is the first content section whose `data-content` is `t`; so at most one of each is
active. -/
theorem switchToSection_exclusive (doc : Document) (t : String) (ht : cssPlain t = true)
    (hdisjoint : ∀ e ∈ doc,
      ¬ ("about-nav-link" ∈ e.classList ∧ "about-content-section" ∈ e.classList)) :
    ((querySelectorAll aboutNavLinkSelector doc).length ≠ 0 →
      (querySelectorAll aboutContentSelector doc).length ≠ 0 →
      ∃ out, afterSwitch doc t = some out ∧ out.completion = .normal) ∧
    NavLinksExclusive doc t ∧ ContentSectionsExclusive doc t ∧
    (∀ out, afterSwitch doc t = some out →
      ∀ (i j : Nat) (ei ej ei' ej' : Element),
        doc[i]? = some ei → doc[j]? = some ej →
        ("about-nav-link" ∈ ei.classList ∧ "about-nav-link" ∈ ej.classList ∨
          "about-content-section" ∈ ei.classList ∧ "about-content-section" ∈ ej.classList) →
        out.state[i]? = some ei' → out.state[j]? = some ej' →
        "active" ∈ ei'.classList → "active" ∈ ej'.classList → i = j) := by
  obtain ⟨hnormal, hspec⟩ := switchToSection_spec doc t ht
  have hnav : NavLinksExclusive doc t := by
    intro out hout i e he hn
    rw [afterSwitch_eq_some doc t out hout]
    obtain ⟨e', he', hiff⟩ := hspec i e he
    refine ⟨e', he', hiff.trans ?_⟩
    have hmem : e ∈ doc := List.getElem?_mem he
    constructor
    · rintro (h | h | h)
      · exact h
      · obtain ⟨⟨x, hx, hxc, _⟩, _⟩ := h
        rw [he] at hx
        cases hx
        exact absurd ⟨hn, hxc⟩ (hdisjoint e hmem)
      · exact absurd hn h.2.1
    · exact fun h => Or.inl h
  have hcontent : ContentSectionsExclusive doc t := by
    intro out hout i e he hc
    rw [afterSwitch_eq_some doc t out hout]
    obtain ⟨e', he', hiff⟩ := hspec i e he
    refine ⟨e', he', hiff.trans ?_⟩
    have hmem : e ∈ doc := List.getElem?_mem he
    constructor
    · rintro (h | h | h)
      · obtain ⟨⟨x, hx, hxn, _⟩, _⟩ := h
        rw [he] at hx
        cases hx
        exact absurd ⟨hxn, hc⟩ (hdisjoint e hmem)
      · exact h
      · exact absurd hc h.2.2
    · exact fun h => Or.inr (Or.inl h)
  refine ⟨fun h1 h2 => ⟨_, afterSwitch_of_guard doc t h1 h2, hnormal⟩, hnav, hcontent, ?_⟩
  intro out hout i j ei ej ei' ej' hi hj hboth hi' hj' hai haj
  rcases hboth with ⟨hni, hnj⟩ | ⟨hci, hcj⟩
  · obtain ⟨x, hx, hxi⟩ := hnav out hout i ei hi hni
    obtain ⟨y, hy, hyj⟩ := hnav out hout j ej hj hnj
    rw [hi'] at hx
    rw [hj'] at hy
    cases hx
    cases hy
    exact firstMatch_unique doc _ i j (hxi.mp hai) (hyj.mp haj)
  · obtain ⟨x, hx, hxi⟩ := hcontent out hout i ei hi hci
    obtain ⟨y, hy, hyj⟩ := hcontent out hout j ej hj hcj
    rw [hi'] at hx
    rw [hj'] at hy
    cases hx
    cases hy
    exact firstMatch_unique doc _ i j (hxi.mp hai) (hyj.mp haj)

/-- C1 (witness): on a page with two nav links and two content sections, the second pair active,
the call `switchToSection("about")` of the initialisation activates the first pair and only
it. -/
theorem switchToSection_exclusive_witness :
    cssPlain "about" = true ∧
    passedToSwitch aboutPage "about" = true ∧
    (afterSwitch aboutPage "about").map (fun out => out.state.map (fun e => e.classList)) =
      some [["about-nav-link", "active"], ["about-nav-link"],
        ["about-content-section", "active"], ["about-content-section"]] ∧
    (∃ out, afterSwitch aboutPage "about" = some out ∧ out.completion = .normal) ∧
    NavLinksExclusive aboutPage "about" ∧ ContentSectionsExclusive aboutPage "about" :=
  ⟨by decide, by decide, by decide,
    (switchToSection_exclusive aboutPage "about" (by decide) (by decide)).1
      (by decide) (by decide),
    (switchToSection_exclusive aboutPage "about" (by decide) (by decide)).2.1,
    (switchToSection_exclusive aboutPage "about" (by decide) (by decide)).2.2.1⟩

/-! ### Navigation active states -/

theorem firstMatch_rel (doc doc' : Document) (p q : Element → Prop)
    (hlen : doc'.length = doc.length)
    (hrel : ∀ (j : Nat) (e e' : Element), doc[j]? = some e → doc'[j]? = some e' → (p e' ↔ q e))
    (i : Nat) : FirstMatch doc' p i ↔ FirstMatch doc q i := by
  have hsome : ∀ (j : Nat) (e' : Element), doc'[j]? = some e' → ∃ e, doc[j]? = some e := by
    intro j e' he'
    cases h : doc[j]? with
    | some e => exact ⟨e, rfl⟩
    | none =>
      have h1 : doc.length ≤ j := List.getElem?_eq_none_iff.mp h
      rw [List.getElem?_eq_none (by omega)] at he'
      cases he'
  have hsome' : ∀ (j : Nat) (e : Element), doc[j]? = some e → ∃ e', doc'[j]? = some e' := by
    intro j e he
    cases h : doc'[j]? with
    | some e' => exact ⟨e', rfl⟩
    | none =>
      have h1 : doc'.length ≤ j := List.getElem?_eq_none_iff.mp h
      rw [List.getElem?_eq_none (by omega)] at he
      cases he
  unfold FirstMatch
  constructor
  · rintro ⟨⟨e', he', hpe'⟩, hmin⟩
    obtain ⟨e, he⟩ := hsome i e' he'
    refine ⟨⟨e, he, (hrel i e e' he he').mp hpe'⟩, ?_⟩
    intro j hj x hx hqx
    obtain ⟨x', hx'⟩ := hsome' j x hx
    exact hmin j hj x' hx' ((hrel j x x' hx hx').mpr hqx)
  · rintro ⟨⟨e, he, hqe⟩, hmin⟩
    obtain ⟨e', he'⟩ := hsome' i e he
    refine ⟨⟨e', he', (hrel i e e' he he').mpr hqe⟩, ?_⟩
    intro j hj x' hx' hpx'
    obtain ⟨x, hx⟩ := hsome j x' hx'
    exact hmin j hj x hx ((hrel j x x' hx hx').mp hpx')

theorem sameButActive_refl (doc : Document) : SameButActive doc doc := by
  refine ⟨rfl, ?_⟩
  intro j e e' he he'
  rw [he] at he'
  cases he'
  exact ⟨rfl, fun _ _ => Iff.rfl⟩

theorem targetId_of_same (d doc : Document) (h : SameButActive d doc) (entry : Entry) :
    targetId d entry = targetId doc entry := by
  unfold targetId
  cases hdoc : doc[entry.target]? with
  | none =>
    have h1 : doc.length ≤ entry.target := List.getElem?_eq_none_iff.mp hdoc
    rw [List.getElem?_eq_none (by rw [h.1]; exact h1)]
  | some e =>
    cases hd : d[entry.target]? with
    | none =>
      have h1 : d.length ≤ entry.target := List.getElem?_eq_none_iff.mp hd
      rw [List.getElem?_eq_none (by rw [← h.1]; exact h1)] at hdoc
      cases hdoc
    | some e' =>
      have := (h.2 _ e e' hdoc hd).1
      simp only [Element.id, Element.getAttribute, this]

theorem cssPlain_hash (t : String) (ht : cssPlain t = true) : cssPlain ("#" ++ t) = true := by
  unfold cssPlain at ht ⊢
  rw [String.data_append, List.all_append, ht, Bool.and_true]
  decide

/-- One intersecting entry with a plain target id: the callback body returns normally, leaves
the document as it was but for `active` and the inline transforms, and leaves `active` on
exactly the first nav link whose `href` is `#` followed by the target's id. -/
theorem navEntry_spec (doc : Document) (s : NavState) (entry : Entry)
    (hsim : SameButActive s.doc doc) (hint : entry.isIntersecting = true)
    (hplain : cssPlain (targetId doc entry) = true) :
    (navEntry (querySelectorAll navLinkSelector doc) s entry).completion = .normal ∧
    SameButActive (navEntry (querySelectorAll navLinkSelector doc) s entry).state.doc doc ∧
    ∀ (i : Nat) (e : Element), doc[i]? = some e → "nav-link" ∈ e.classList →
      ∃ e', (navEntry (querySelectorAll navLinkSelector doc) s entry).state.doc[i]? = some e' ∧
        ("active" ∈ e'.classList ↔
          FirstMatch doc
            (fun x => "nav-link" ∈ x.classList ∧
              x.getAttribute "href" = some ("#" ++ targetId doc entry)) i) := by
  have hN : (querySelectorAll navLinkSelector doc).Nodup := nodup_positionsWhere _ _
  have hdoc1 := getElem?_forEach (querySelectorAll navLinkSelector doc) hN
    (fun link => { classListRemove "active" link with transform := .unset }) s.doc
  have hlen1 := length_forEach (querySelectorAll navLinkSelector doc)
    (fun link => { classListRemove "active" link with transform := .unset }) s.doc
  generalize hd1 : forEach (querySelectorAll navLinkSelector doc)
    (fun link => { classListRemove "active" link with transform := .unset }) s.doc = doc1
    at hdoc1 hlen1
  have hsim1 : SameButActive doc1 doc := by
    refine ⟨hlen1.trans hsim.1, ?_⟩
    intro j e e' he he'
    rw [hdoc1] at he'
    cases hs : s.doc[j]? with
    | none => rw [hs] at he'; cases he'
    | some es =>
      rw [hs] at he'
      simp only [Option.map_some', Option.some.injEq] at he'
      obtain ⟨hattrs, hcls⟩ := hsim.2 j e es he hs
      subst he'
      split
      · refine ⟨hattrs, ?_⟩
        intro c hc
        rw [← hcls c hc]
        show c ∈ (classListRemove "active" es).classList ↔ _
        rw [mem_classListRemove]
        exact ⟨fun h => h.2, fun h => ⟨hc, h⟩⟩
      · exact ⟨hattrs, hcls⟩
  have hid : targetId doc1 entry = targetId doc entry := targetId_of_same doc1 doc hsim1 entry
  have hstep : navEntry (querySelectorAll navLinkSelector doc) s entry =
      match querySelector [[.cls "nav-link", .attrEq "href" ("#" ++ targetId doc entry)]] doc1 with
      | some activeLink =>
        ⟨{ doc := mutate activeLink (classListAdd "active") doc1
           pulseTimers := s.pulseTimers ++ [activeLink] }, .normal⟩
      | none => ⟨{ s with doc := doc1 }, .normal⟩ := by
    unfold navEntry
    rw [if_pos hint]
    simp only [hd1, hid, attributeSelectorText_plain _ _ _ (cssPlain_hash _ hplain),
      documentQuerySelector]
    generalize
      querySelector [[.cls "nav-link", .attrEq "href" ("#" ++ targetId doc entry)]] doc1 = o
    cases o <;> rfl
  rw [hstep]
  generalize ho :
    querySelector [[.cls "nav-link", .attrEq "href" ("#" ++ targetId doc entry)]] doc1 = o
  have hfirst : ∀ i, o = some i ↔ FirstMatch doc
      (fun x => "nav-link" ∈ x.classList ∧
        x.getAttribute "href" = some ("#" ++ targetId doc entry)) i := by
    intro i
    rw [← ho, querySelector_eq_some]
    apply firstMatch_rel doc doc1 _ _ hsim1.1
    intro j e e' he he'
    obtain ⟨hattrs, hcls⟩ := hsim1.2 j e e' he he'
    rw [matches_class_attr, hcls _ (by decide)]
    simp only [Element.getAttribute, hattrs]
  have hdoc2 : ∀ j, (match o with
      | some activeLink =>
        (⟨{ doc := mutate activeLink (classListAdd "active") doc1
            pulseTimers := s.pulseTimers ++ [activeLink] }, .normal⟩ : Outcome NavState)
      | none => ⟨{ s with doc := doc1 }, .normal⟩).state.doc[j]? =
      (doc1[j]?).map (fun e => if o = some j then classListAdd "active" e else e) := by
    intro j
    cases o with
    | none => simp
    | some k => simp only [getElem?_mutate, Option.some.injEq]
  have hcomp : (match o with
      | some activeLink =>
        (⟨{ doc := mutate activeLink (classListAdd "active") doc1
            pulseTimers := s.pulseTimers ++ [activeLink] }, .normal⟩ : Outcome NavState)
      | none => ⟨{ s with doc := doc1 }, .normal⟩).completion = .normal := by
    cases o <;> rfl
  have hlen2 : (match o with
      | some activeLink =>
        (⟨{ doc := mutate activeLink (classListAdd "active") doc1
            pulseTimers := s.pulseTimers ++ [activeLink] }, .normal⟩ : Outcome NavState)
      | none => ⟨{ s with doc := doc1 }, .normal⟩).state.doc.length = doc1.length := by
    cases o with
    | none => rfl
    | some k => simp [mutate]
  refine ⟨hcomp, ⟨hlen2.trans hsim1.1, ?_⟩, ?_⟩
  · intro j e e' he he'
    rw [hdoc2] at he'
    cases h1 : doc1[j]? with
    | none => rw [h1] at he'; cases he'
    | some e1 =>
      rw [h1] at he'
      simp only [Option.map_some', Option.some.injEq] at he'
      obtain ⟨hattrs, hcls⟩ := hsim1.2 j e e1 he h1
      subst he'
      split
      · refine ⟨?_, ?_⟩
        · unfold classListAdd
          split <;> exact hattrs
        · intro c hc
          rw [mem_classListAdd, ← hcls c hc]
          exact ⟨fun h => h.resolve_left hc, fun h => Or.inr h⟩
      · exact ⟨hattrs, hcls⟩
  · intro i e he hn
    have hi : i ∈ querySelectorAll navLinkSelector doc :=
      (mem_querySelectorAll_cls "nav-link" doc i e he).mpr hn
    rw [hdoc2, hdoc1]
    cases hs : s.doc[i]? with
    | none =>
      have h1 : s.doc.length ≤ i := List.getElem?_eq_none_iff.mp hs
      rw [List.getElem?_eq_none (by rw [← hsim.1]; exact h1)] at he
      cases he
    | some es =>
      simp only [Option.map_some', if_pos hi]
      refine ⟨_, rfl, ?_⟩
      rw [← hfirst i]
      by_cases ho : o = some i
      · simp [ho, mem_classListAdd]
      · simp only [if_neg ho, ho, iff_false]
        intro hmem
        exact ((mem_classListRemove "active" "active" es).mp hmem).1 rfl

theorem navCallback_of_normal (navLinks : List Nat) (s : NavState) (entry : Entry)
    (rest : List Entry) (h : (navEntry navLinks s entry).completion = .normal) :
    navCallback navLinks s (entry :: rest) =
      navCallback navLinks (navEntry navLinks s entry).state rest := by
  cases hout : navEntry navLinks s entry with
  | mk s' c =>
    rw [hout] at h
    simp only at h
    subst h
    simp only [navCallback, hout]

theorem navEntry_not_intersecting (navLinks : List Nat) (s : NavState) (entry : Entry)
    (h : ¬ entry.isIntersecting = true) : navEntry navLinks s entry = ⟨s, .normal⟩ := by
  unfold navEntry
  rw [if_neg h]

/-- A batch whose intersecting entries all have plain target ids: the callback returns
normally, changes nothing when no entry is intersecting, and otherwise leaves `active` on
exactly the nav link of the last intersecting entry. -/
theorem navCallback_spec (doc : Document) (entries : List Entry) (s : NavState)
    (hsim : SameButActive s.doc doc)
    (hplain : ∀ entry ∈ entries, entry.isIntersecting = true →
      cssPlain (targetId doc entry) = true) :
    (navCallback (querySelectorAll navLinkSelector doc) s entries).completion = .normal ∧
    (lastIntersecting entries = none →
      (navCallback (querySelectorAll navLinkSelector doc) s entries).state = s) ∧
    (∀ last, lastIntersecting entries = some last →
      ∀ (i : Nat) (e : Element), doc[i]? = some e → "nav-link" ∈ e.classList →
        ∃ e', (navCallback (querySelectorAll navLinkSelector doc) s entries).state.doc[i]?
            = some e' ∧
          ("active" ∈ e'.classList ↔
            FirstMatch doc
              (fun x => "nav-link" ∈ x.classList ∧
                x.getAttribute "href" = some ("#" ++ targetId doc last)) i)) := by
  induction entries generalizing s with
  | nil =>
    refine ⟨rfl, fun _ => rfl, ?_⟩
    intro last hlast
    cases hlast
  | cons entry rest ih =>
    have hrest : ∀ x ∈ rest, x.isIntersecting = true → cssPlain (targetId doc x) = true :=
      fun x hx => hplain x (List.mem_cons_of_mem _ hx)
    by_cases hint : entry.isIntersecting = true
    · obtain ⟨hnormal, hsim', hact⟩ :=
        navEntry_spec doc s entry hsim hint (hplain entry (List.mem_cons_self _ _) hint)
      rw [navCallback_of_normal _ _ _ _ hnormal]
      obtain ⟨ih1, ih2, ih3⟩ := ih _ hsim' hrest
      refine ⟨ih1, ?_, ?_⟩
      · intro hnone
        simp only [lastIntersecting] at hnone
        cases hl : lastIntersecting rest with
        | none => rw [hl] at hnone; simp [hint] at hnone
        | some l => rw [hl] at hnone; cases hnone
      · intro last hlast
        simp only [lastIntersecting] at hlast
        cases hl : lastIntersecting rest with
        | none =>
          rw [hl] at hlast
          simp only [hint, if_true, Option.some.injEq] at hlast
          subst hlast
          rw [ih2 hl]
          exact hact
        | some l =>
          rw [hl] at hlast
          simp only [Option.some.injEq] at hlast
          subst hlast
          exact ih3 l hl
    · have hstep := navEntry_not_intersecting (querySelectorAll navLinkSelector doc) s entry hint
      have hnormal : (navEntry (querySelectorAll navLinkSelector doc) s entry).completion
          = .normal := by rw [hstep]
      rw [navCallback_of_normal _ _ _ _ hnormal, hstep]
      obtain ⟨ih1, ih2, ih3⟩ := ih s hsim hrest
      have hlast : lastIntersecting (entry :: rest) = lastIntersecting rest := by
        simp only [lastIntersecting]
        cases lastIntersecting rest with
        | none => simp [hint]
        | some l => rfl
      rw [hlast]
      exact ⟨ih1, ih2, ih3⟩

/-- C2 as stated fails on a page with a section whose id is `q"a`, a nav link to `#home` and
the section `home`, for the batch in which both sections are intersecting: the selector built
for the first entry is invalid, `querySelector` throws, the second entry is never processed,
and the link to `#home` is not active although `home` is the last intersecting target. -/
theorem navHighlight_fails_on_quoted_id :
    lastIntersecting [Entry.mk true 0, Entry.mk true 2] = some (Entry.mk true 2) ∧
    targetId quotedIdPage (Entry.mk true 2) = "home" ∧
    (afterBatch quotedIdPage [Entry.mk true 0, Entry.mk true 2]).completion = .syntaxError ∧
    ¬ NavHighlight quotedIdPage [Entry.mk true 0, Entry.mk true 2] := by
  refine ⟨by decide, by decide, by decide, ?_⟩
  intro h
  obtain ⟨e', he', hiff⟩ := h.2 (Entry.mk true 2) (by decide) 1 _ rfl (by decide)
  have hst : (afterBatch quotedIdPage [Entry.mk true 0, Entry.mk true 2]).state.doc
      = quotedIdPage := by decide
  rw [hst] at he'
  simp only [quotedIdPage, List.getElem?_cons_succ, List.getElem?_cons_zero,
    Option.some.injEq] at he'
  subst he'
  have hfirst : FirstMatch quotedIdPage
      (fun x => "nav-link" ∈ x.classList ∧
        x.getAttribute "href" = some ("#" ++ targetId quotedIdPage (Entry.mk true 2))) 1 := by
    refine ⟨⟨_, rfl, by decide, by decide⟩, ?_⟩
    intro j hj e he hp
    have hj0 : j = 0 := by omega
    subst hj0
    simp only [quotedIdPage, List.getElem?_cons_zero, Option.some.injEq] at he
    subst he
    exact absurd hp.1 (by decide)
  have hact := hiff.mpr hfirst
  revert hact
  decide

/-- C2 with its proviso: for every page and every batch in which the target id of every
intersecting entry has no double quote, backslash, line break or NUL, the callback returns
normally; if no entry is intersecting the document is unchanged; otherwise a nav link carries
`active` afterwards exactly when it is the first nav link whose `href` is `#` followed by the
id of the last intersecting entry's target, so at most one nav link is active. -/
theorem navHighlight_plain (doc : Document) (entries : List Entry)
    (hplain : ∀ entry ∈ entries, entry.isIntersecting = true →
      cssPlain (targetId doc entry) = true) :
    (afterBatch doc entries).completion = .normal ∧
    NavHighlight doc entries ∧
    (lastIntersecting entries ≠ none →
      ∀ (i j : Nat) (ei ej ei' ej' : Element),
        doc[i]? = some ei → doc[j]? = some ej →
        "nav-link" ∈ ei.classList → "nav-link" ∈ ej.classList →
        (afterBatch doc entries).state.doc[i]? = some ei' →
        (afterBatch doc entries).state.doc[j]? = some ej' →
        "active" ∈ ei'.classList → "active" ∈ ej'.classList → i = j) := by
  obtain ⟨h1, h2, h3⟩ := navCallback_spec doc entries ⟨doc, []⟩ (sameButActive_refl doc) hplain
  refine ⟨h1, ⟨?_, h3⟩, ?_⟩
  · intro hnone
    show (navCallback (querySelectorAll navLinkSelector doc) ⟨doc, []⟩ entries).state.doc = doc
    rw [h2 hnone]
  · intro hsome i j ei ej ei' ej' hi hj hni hnj hi' hj' hai haj
    cases hl : lastIntersecting entries with
    | none => exact absurd hl hsome
    | some last =>
      obtain ⟨x, hx, hxi⟩ := h3 last hl i ei hi hni
      obtain ⟨y, hy, hyj⟩ := h3 last hl j ej hj hnj
      change (afterBatch doc entries).state.doc[i]? = some x at hx
      change (afterBatch doc entries).state.doc[j]? = some y at hy
      rw [hi'] at hx
      rw [hj'] at hy
      cases hx
      cases hy
      exact firstMatch_unique doc _ i j (hxi.mp hai) (hyj.mp haj)

/-- C2 (witness): on a page with two sections and their nav links, the first link active, a
batch reporting `home` as not intersecting and `work` as intersecting moves `active` to the
link to `#work`. -/
theorem navHighlight_plain_witness :
    (afterBatch navPage [Entry.mk false 2, Entry.mk true 3]).state.doc.map
        (fun e => e.classList) = [["nav-link"], ["nav-link", "active"], [], []] ∧
    (afterBatch navPage [Entry.mk false 2, Entry.mk true 3]).completion = .normal ∧
    NavHighlight navPage [Entry.mk false 2, Entry.mk true 3] :=
  ⟨by decide,
    (navHighlight_plain navPage [Entry.mk false 2, Entry.mk true 3] (by decide)).1,
    (navHighlight_plain navPage [Entry.mk false 2, Entry.mk true 3] (by decide)).2.1⟩

theorem lastIntersecting_eq_none (entries : List Entry) :
    lastIntersecting entries = none ↔ ∀ entry ∈ entries, entry.isIntersecting = false := by
  induction entries with
  | nil => simp [lastIntersecting]
  | cons entry rest ih =>
    simp only [lastIntersecting, List.mem_cons, forall_eq_or_imp]
    cases hl : lastIntersecting rest with
    | some l =>
      rw [hl] at ih
      simp only [false_iff, reduceCtorEq] at ih ⊢
      exact fun h => ih h.2
    | none =>
      rw [hl] at ih
      have hrest := ih.mp rfl
      by_cases hint : entry.isIntersecting = true
      · simp [hint]
      · have hf : entry.isIntersecting = false := by simpa using hint
        simpa [hf] using hrest

/-! ### Smooth scroll for internal links -/

/-- Where the link's `href` is a well-formed ID selector the handler does what C4 says: with no
matching element it does nothing, with a match it prevents the default action, scrolls the
first match into view smoothly and pushes the `href` once. -/
theorem smoothScrollClick_wellFormed (targetId : String) (sel : Selector) (doc : Document)
    (s : ClickEffects) (hsel : hashSelectorText targetId = .selector sel) :
    (querySelector sel doc = none → smoothScrollClick targetId doc s = ⟨s, .normal⟩) ∧
    (∀ targetElement, querySelector sel doc = some targetElement →
      smoothScrollClick targetId doc s =
        ⟨{ defaultPrevented := true
           scrolls := s.scrolls ++ [ScrollCall.mk targetElement "smooth" "start"]
           history := s.history ++ [targetId] }, .normal⟩) := by
  unfold smoothScrollClick
  rw [hsel]
  simp only [documentQuerySelector]
  constructor
  · intro h
    rw [h]
  · intro targetElement h
    rw [h]

/-- The `href` `#about` is the ID selector for `about`. -/
theorem hashSelectorText_about :
    hashSelectorText "#about" = .selector [[.ident "about"]] := by
  decide

/-- C4, for a link whose `href` is the bare `#` (which `a[href^="#"]` matches), on any page:
`document.querySelector('#')` throws a `SyntaxError`, so the click handler does not complete
normally. -/
theorem smoothScrollClick_bare_hash (doc : Document) (s : ClickEffects) :
    anchorLinkSelector.matches (Element.mk "a" [] [("href", "#")] .unset "" "") = true ∧
    hashSelectorText "#" = .syntaxError ∧
    (smoothScrollClick "#" doc s).completion = .syntaxError ∧
    (smoothScrollClick "#" doc s).state = s := by
  have h : hashSelectorText "#" = .syntaxError := by decide
  refine ⟨by decide, h, ?_, ?_⟩
  · unfold smoothScrollClick
    rw [h]
    rfl
  · unfold smoothScrollClick
    rw [h]
    rfl

/-! ### Start-up -/

/-- C5, in a browser without `IntersectionObserver`, on a page with a section with an id, a
nav link, and an About switcher: `initializeApp` ends with the error thrown by
`new IntersectionObserver` in `initializeNavigationActiveStates`; the three initializers after
it are never called, and in particular the About switcher gets no listener and no section is
made active. -/
theorem initializeApp_throws_without_observer :
    querySelectorAll sectionSelector sitePage = [1] ∧
    querySelectorAll navLinkSelector sitePage = [0] ∧
    (initializeApp legacyWindow (App.load sitePage)).completion = .referenceError ∧
    (initializeApp legacyWindow (App.load sitePage)).state.called =
      ["initializeScrollAnimations", "initializeSmoothScroll", "handlePageLoad",
       "initializeResponsiveText", "initializeNavigationActiveStates"] ∧
    (initializeApp legacyWindow (App.load sitePage)).state.listeners =
      [Listener.smoothScrollClick 0, Listener.windowLoad, Listener.windowResize] ∧
    (initializeApp legacyWindow (App.load sitePage)).state.doc = sitePage := by
  refine ⟨by decide, by decide, by decide, by decide, by decide, by decide⟩

theorem switchToSection_plain_normal (navLinks contentSections : List Nat) (t : String)
    (doc : Document) (ht : cssPlain t = true) :
    (switchToSection navLinks contentSections t doc).completion = .normal := by
  unfold switchToSection
  simp only [attributeSelectorText_plain _ _ _ ht, documentQuerySelector]

theorem App.initializeAboutNavigation_normal (a : App) :
    (App.initializeAboutNavigation a).completion = .normal ∧
    (App.initializeAboutNavigation a).state.called =
      a.called ++ ["initializeAboutNavigation"] := by
  unfold App.initializeAboutNavigation
  simp only
  split
  · exact ⟨rfl, rfl⟩
  · have h := switchToSection_plain_normal (querySelectorAll aboutNavLinkSelector a.doc)
      (querySelectorAll aboutContentSelector a.doc) "about" a.doc (by decide)
    split
    · exact ⟨rfl, rfl⟩
    · rename_i c hc hne
      exact absurd h hne

theorem App.initializeParallaxCards_normal (w : Window) (a : App) :
    (App.initializeParallaxCards w a).completion = .normal ∧
    (App.initializeParallaxCards w a).state.called =
      a.called ++ ["initializeParallaxCards"] := by
  unfold App.initializeParallaxCards
  simp only
  split
  · exact ⟨rfl, rfl⟩
  · split
    · exact ⟨rfl, rfl⟩
    · exact ⟨rfl, rfl⟩

theorem App.initializeNavigationActiveStates_normal (w : Window) (a : App)
    (h : w.hasIntersectionObserver = true ∨
      (querySelectorAll sectionSelector a.doc).length = 0 ∨
      (querySelectorAll navLinkSelector a.doc).length = 0) :
    (App.initializeNavigationActiveStates w a).completion = .normal ∧
    (App.initializeNavigationActiveStates w a).state.called =
      a.called ++ ["initializeNavigationActiveStates"] := by
  unfold App.initializeNavigationActiveStates
  simp only
  split
  · exact ⟨rfl, rfl⟩
  · rename_i hguard
    rcases h with h | h | h
    · rw [if_neg (by simp [h])]
      exact ⟨rfl, rfl⟩
    · exact absurd (Or.inl h) hguard
    · exact absurd (Or.inr h) hguard

theorem App.initializeScrollAnimations_normal (w : Window) (a : App) :
    (App.initializeScrollAnimations w a).completion = .normal ∧
    (App.initializeScrollAnimations w a).state.called =
      a.called ++ ["initializeScrollAnimations"] ∧
    (App.initializeScrollAnimations w a).state.doc = a.doc := by
  unfold App.initializeScrollAnimations
  simp only
  split
  · exact ⟨rfl, rfl, rfl⟩
  · exact ⟨rfl, rfl, rfl⟩

theorem Outcome.andThen_normal {σ : Type} (r : Outcome σ) (f : σ → Outcome σ)
    (h : r.completion = .normal) : r.andThen f = f r.state := by
  unfold Outcome.andThen
  rw [h]

/-- Where `IntersectionObserver` is defined, or the page lacks `section[id], main[id]` or
`.nav-link` elements, `initializeApp` returns normally and has called all eight initializers
in order. -/
theorem initializeApp_completes (w : Window) (a : App)
    (h : w.hasIntersectionObserver = true ∨
      (querySelectorAll sectionSelector a.doc).length = 0 ∨
      (querySelectorAll navLinkSelector a.doc).length = 0) :
    (initializeApp w a).completion = .normal ∧
    (initializeApp w a).state.called = a.called ++
      ["initializeScrollAnimations", "initializeSmoothScroll", "handlePageLoad",
       "initializeResponsiveText", "initializeNavigationActiveStates",
       "initializeScrollEffects", "initializeParallaxCards", "initializeAboutNavigation"] := by
  unfold initializeApp
  obtain ⟨h1, h1c, h1d⟩ := App.initializeScrollAnimations_normal w a
  rw [Outcome.andThen_normal (App.initializeScrollAnimations w a) _ h1]
  generalize (App.initializeScrollAnimations w a).state = a1 at h1c h1d
  rw [Outcome.andThen_normal (App.initializeSmoothScroll a1) _ rfl,
    Outcome.andThen_normal (App.handlePageLoad _) _ rfl,
    Outcome.andThen_normal (App.initializeResponsiveText w _) _ rfl]
  have hdoc : (App.initializeResponsiveText w
      (App.handlePageLoad (App.initializeSmoothScroll a1).state).state).state.doc = a.doc := h1d
  have hcalled : (App.initializeResponsiveText w
      (App.handlePageLoad (App.initializeSmoothScroll a1).state).state).state.called =
      a.called ++ ["initializeScrollAnimations", "initializeSmoothScroll", "handlePageLoad",
        "initializeResponsiveText"] := by
    show a1.called ++ ["initializeSmoothScroll"] ++ ["handlePageLoad"]
      ++ ["initializeResponsiveText"] = _
    rw [h1c]
    simp
  generalize (App.initializeResponsiveText w
      (App.handlePageLoad (App.initializeSmoothScroll a1).state).state).state = a4
    at hdoc hcalled
  obtain ⟨h5, h5c⟩ := App.initializeNavigationActiveStates_normal w a4 (by rw [hdoc]; exact h)
  rw [Outcome.andThen_normal (App.initializeNavigationActiveStates w a4) _ h5]
  generalize (App.initializeNavigationActiveStates w a4).state = a5 at h5c
  rw [Outcome.andThen_normal (App.initializeScrollEffects a5) _ rfl]
  obtain ⟨h7, h7c⟩ := App.initializeParallaxCards_normal w (App.initializeScrollEffects a5).state
  rw [Outcome.andThen_normal (App.initializeParallaxCards w _) _ h7]
  obtain ⟨h8, h8c⟩ := App.initializeAboutNavigation_normal
    (App.initializeParallaxCards w (App.initializeScrollEffects a5).state).state
  refine ⟨h8, ?_⟩
  rw [h8c, h7c]
  show a5.called ++ ["initializeScrollEffects"] ++ ["initializeParallaxCards"]
    ++ ["initializeAboutNavigation"] = _
  rw [h5c, hcalled]
  simp

end UnderGrads
